import Mathlib

/-!
Verification development for the photo-scan-tools repository, centred on
`src/exif-writer.py`: the marker model, the tag store and its merge policy,
the filename grammar decoder, the auto-fill and conditional resolvers, the
image geometric transform, and the per-file processing skeleton.

Python dictionaries are modelled as insertion-ordered association lists
(`Store`); Python values that can live in a tag store are modelled by the
inductive type `Value`.  Floats are modelled as rationals (the program only
ever compares and copies them; no float rounding is observable in the
properties proved here).
-/

set_option maxRecDepth 4000

namespace ExifWriter

/-- Marker options for tag values (class `Marker`, src/exif-writer.py:29-34). -/
inductive Marker where
  | MANDATORY
  | OPTIONAL
  | AUTO
  | SKIP
  | DELETE
deriving DecidableEq, Repr

/-- The `.value` display form of each marker (src/exif-writer.py:30-34). -/
def Marker.display : Marker → String
  | .MANDATORY => "<MANDATORY>"
  | .OPTIONAL  => "<OPTIONAL>"
  | .AUTO      => "<AUTO>"
  | .SKIP      => "<SKIP>"
  | .DELETE    => "<DELETE>"

/-- Iteration order of `for marker in Marker` (declaration order). -/
def Marker.all : List Marker := [.MANDATORY, .OPTIONAL, .AUTO, .SKIP, .DELETE]

/-- A Python value that can appear in a tag store: strings, ints, floats
(modelled as rationals), bools, `None`, lists, tuples, and `Marker` enum
members. -/
inductive Value where
  | str (s : String)
  | int (n : Int)
  | float (q : Rat)
  | bool (b : Bool)
  | pynone
  | list (xs : List Value)
  | tuple (xs : List Value)
  | marker (m : Marker)

/-- Python `x == <marker m>` for a tag value `x`: enum members compare equal
only to themselves. -/
def Value.eqMarker : Value → Marker → Bool
  | .marker m', m => m' = m
  | _, _ => false

/-- Python `isinstance(x, Marker)`. -/
def Value.isMarkerVal : Value → Bool
  | .marker _ => true
  | _ => false

/-- Elements of a value when it is a Python `list` or `tuple`
(`isinstance(value, (list, tuple))`). -/
def Value.seqElems : Value → Option (List Value)
  | .list xs => some xs
  | .tuple xs => some xs
  | _ => none

/-- Container kind of a sequence value: `true` for `list`, `false` for
`tuple` (used to model `type(base[key])(value_old)`). -/
def Value.seqKind : Value → Bool
  | .list _ => true
  | _ => false

/-- Rebuild a sequence value of the given container kind. -/
def mkSeq (kind : Bool) (xs : List Value) : Value :=
  if kind then .list xs else .tuple xs

/-- Python `x == "lit"` for a tag value `x` and a string literal. -/
def Value.eqStr : Value → String → Bool
  | .str s, t => s = t
  | _, _ => false

/- ## String helpers modelling the Python string operations used -/

/-- `leads p l` : the list `p` is an initial segment of `l` (own definition,
used to model `str.startswith`). -/
def leads : List Char → List Char → Bool
  | [], _ => true
  | _ :: _, [] => false
  | a :: as, b :: bs => a = b && leads as bs

/-- Python `s.startswith(p)`. -/
def pyStartsWith (s p : String) : Bool := leads p.data s.data

/-- Python `c in s` for a single character. -/
def pyContainsChar (s : String) (c : Char) : Bool := s.data.any (fun a => a = c)

/-- Split a character list at every occurrence of `c`
(Python `str.split(c)`). -/
def splitCharList (c : Char) : List Char → List (List Char)
  | [] => [[]]
  | a :: rest =>
    let r := splitCharList c rest
    if a = c then [] :: r
    else
      match r with
      | [] => [[a]]
      | h :: t => (a :: h) :: t

/-- Python `s.split(c)` (no maxsplit). -/
def pySplitChar (s : String) (c : Char) : List String :=
  (splitCharList c s.data).map List.asString

/-- Split a character list at the first occurrence of `c`; `none` when `c`
does not occur. -/
def splitFirst (c : Char) : List Char → Option (List Char × List Char)
  | [] => none
  | a :: rest =>
    if a = c then some ([], rest)
    else
      match splitFirst c rest with
      | some (l, r) => some (a :: l, r)
      | none => none

/-- Python `s.split(c, 1)`. -/
def pySplitChar1 (s : String) (c : Char) : List String :=
  match splitFirst c s.data with
  | some (l, r) => [l.asString, r.asString]
  | none => [s]

/-- Python `s.rsplit(c, 1)`. -/
def pyRsplitChar1 (s : String) (c : Char) : List String :=
  match splitFirst c s.data.reverse with
  | some (r1, r2) => [r2.reverse.asString, r1.reverse.asString]
  | none => [s]

/-- Python `s.lstrip()`. -/
def pyLstrip (s : String) : String :=
  (s.data.dropWhile Char.isWhitespace).asString

/-- Python `s.strip()` (whitespace only, as used by the source). -/
def pyStrip (s : String) : String :=
  ((s.data.dropWhile Char.isWhitespace).reverse.dropWhile Char.isWhitespace).reverse.asString

/-- The apostrophe character (written via its code point). -/
def apos : Char := Char.ofNat 39

/-- Replace every (non-overlapping, left-to-right) occurrence of `pat` by
`repl` (Python `str.replace` for non-empty patterns); structural recursion
on a fuel bound that the caller instantiates with the input length (each
step consumes at least one character, so the fuel never runs out). -/
def replaceLAux (pat repl : List Char) : Nat → List Char → List Char
  | _, [] => []
  | 0, xs => xs
  | fuel + 1, x :: xs =>
    if pat ≠ [] ∧ leads pat (x :: xs) then
      repl ++ replaceLAux pat repl fuel (xs.drop (pat.length - 1))
    else x :: replaceLAux pat repl fuel xs

/-- Python `s.replace(pat, repl)` (non-empty `pat`, as at every call site). -/
def pyReplace (s pat repl : String) : String :=
  (replaceLAux pat.data repl.data s.data.length s.data).asString

/-- Digits of a decimal numeral; `none` when empty or a non-digit occurs. -/
def digitsToNat? (l : List Char) : Option Nat :=
  if l = [] then none
  else if l.all Char.isDigit then
    some (l.foldl (fun acc c => acc * 10 + (c.toNat - 48)) 0)
  else none

/-- Python `int(s)` on the plain decimal forms used by the program
(optional sign, decimal digits); exotic forms (whitespace, underscores,
bases) are out of scope of the source's grammar. -/
def pyInt? (s : String) : Option Int :=
  match s.data with
  | '+' :: rest => (digitsToNat? rest).map Int.ofNat
  | '-' :: rest => (digitsToNat? rest).map (fun n => -(n : Int))
  | l => (digitsToNat? l).map Int.ofNat

/-- Python `float(s)` on plain decimal forms `[sign]digits[.digits]`,
`.digits`, `digits.` (exponent forms are not used by the filename grammar). -/
def pyFloat? (s : String) : Option Rat :=
  let core : List Char → Option Rat := fun l =>
    match splitFirst '.' l with
    | none => (digitsToNat? l).map (fun n => (n : Rat))
    | some (ip, fp) =>
      if ip = [] && fp = [] then none
      else
        let ipn : Option Nat := if ip = [] then some 0 else digitsToNat? ip
        let fpn : Option Nat := if fp = [] then some 0 else digitsToNat? fp
        match ipn, fpn with
        | some i, some f => some ((i : Rat) + (f : Rat) / ((10 : Rat) ^ fp.length))
        | _, _ => none
  match s.data with
  | '+' :: rest => core rest
  | '-' :: rest => (core rest).map (fun q => -q)
  | l => core l

/-- Convert string to an int (`str2int`, src/exif-writer.py:235-244); the
`negative_prefix` argument is always left at its default `'m'` by the
callers, so it is fixed here. -/
def str2int (s : String) : Except String Int :=
  if pyStartsWith s "m" then
    match pyInt? (s.drop 1) with
    | some n => .ok (-n)
    | none => .error "Cannot convert to integer."
  else
    match pyInt? s with
    | some n => .ok n
    | none => .error "Cannot convert to integer."

/-- Convert string to a float (`str2float`, src/exif-writer.py:247-257);
`negative_prefix = 'm'` and `decimal_point = '.'` are the defaults used by
every caller (the `decimal_point` replace is then the identity). -/
def str2float (s : String) : Except String Rat :=
  if pyStartsWith s "m" then
    match pyFloat? (s.drop 1) with
    | some q => .ok (-q)
    | none => .error "Cannot convert to float."
  else
    match pyFloat? s with
    | some q => .ok q
    | none => .error "Cannot convert to float."

/- ## Tag stores: Python dicts as insertion-ordered association lists -/

/-- A tag store: Python `dict` modelled as an insertion-ordered association
list (first match wins on lookup; the operations below maintain key
uniqueness exactly as a `dict` does). -/
abbrev Store := List (String × Value)

/-- Python `d[k]` / `d.get(k)`: value at the first matching key. -/
def dictGet : Store → String → Option Value
  | [], _ => none
  | (k', v) :: rest, k => if k' = k then some v else dictGet rest k

/-- Python `k in d`. -/
def containsKey (s : Store) (k : String) : Bool := (dictGet s k).isSome

/-- Python `d[k] = v`: replace in place at the existing position, else
append. -/
def dictSet : Store → String → Value → Store
  | [], k, v => [(k, v)]
  | (k', v') :: rest, k, v =>
    if k' = k then (k, v) :: rest else (k', v') :: dictSet rest k v

/-- Python `d.pop(k, default)`: the removed value (if any) and the remaining
store. -/
def dictPop : Store → String → Option Value × Store
  | [], _ => (none, [])
  | (k', v') :: rest, k =>
    if k' = k then (some v', rest)
    else
      let (o, r) := dictPop rest k
      (o, (k', v') :: r)

/-- The keys of a store, in order. -/
def dictKeys (s : Store) : List String := s.map Prod.fst

/-- Python truthiness of a tag value (`if value:`). -/
def pyTruthy : Value → Bool
  | .str s => s ≠ ""
  | .int n => n ≠ 0
  | .float q => q ≠ 0
  | .bool b => b
  | .pynone => false
  | .list xs => !xs.isEmpty
  | .tuple xs => !xs.isEmpty
  | .marker _ => true

/-- Check if tag value can be written (`tag_iswritable`,
src/exif-writer.py:318-322). -/
def tag_iswritable (tag_name : String) (metadata : Store) : Bool :=
  match dictGet metadata tag_name with
  | some v => !(v.eqMarker .SKIP) && !(v.eqMarker .DELETE)
  | none => false

/- ## Python value rendering (`str()` / `repr()` on the fragment used) -/

/-- Left-pad a numeral string with zeros to width `k`. -/
def padZeros (s : String) (k : Nat) : String :=
  String.mk (List.replicate (k - s.length) '0') ++ s

/-- Python `repr` of a float, on the finite decimal values used by this
program (reduced denominator dividing a power of ten); other rationals get
a fraction rendering (never reached by the modelled code paths). -/
def ratRepr (q : Rat) : String :=
  let sign := if q.num < 0 then "-" else ""
  let n := q.num.natAbs
  let d := q.den
  if d = 1 then sign ++ toString n ++ ".0"
  else
    match (List.range 13).find? (fun k => d ∣ 10 ^ k) with
    | some k =>
      let scaled := n * (10 ^ k / d)
      sign ++ toString (scaled / 10 ^ k) ++ "." ++ padZeros (toString (scaled % 10 ^ k)) k
    | none => sign ++ toString n ++ "/" ++ toString d

/-- The Python surface name of a marker (`str(Marker.X)` = `"Marker.X"`). -/
def Marker.enumName : Marker → String
  | .MANDATORY => "MANDATORY"
  | .OPTIONAL  => "OPTIONAL"
  | .AUTO      => "AUTO"
  | .SKIP      => "SKIP"
  | .DELETE    => "DELETE"

mutual

/-- Python `str(v)` on the value fragment used by the program. -/
def pyStr : Value → String
  | .str s => s
  | .int n => toString n
  | .float q => ratRepr q
  | .bool b => if b then "True" else "False"
  | .pynone => "None"
  | .marker m => "Marker." ++ m.enumName
  | .list xs => "[" ++ pyReprList xs ++ "]"
  | .tuple xs => "(" ++ pyReprList xs ++ ")"

/-- Python `repr(v)` (strings get single quotes; escaping inside string
literals and the singleton-tuple trailing comma are not modelled, no
modelled property depends on them). -/
def pyRepr : Value → String
  | .str s => String.mk [apos] ++ s ++ String.mk [apos]
  | .int n => toString n
  | .float q => ratRepr q
  | .bool b => if b then "True" else "False"
  | .pynone => "None"
  | .marker m => "Marker." ++ m.enumName
  | .list xs => "[" ++ pyReprList xs ++ "]"
  | .tuple xs => "(" ++ pyReprList xs ++ ")"

/-- Comma-joined `repr`s of the elements of a container. -/
def pyReprList : List Value → String
  | [] => ""
  | [x] => pyRepr x
  | x :: y :: rest => pyRepr x ++ ", " ++ pyReprList (y :: rest)

end

/- ## EXIF enumeration dictionaries (src/exif-writer.py:36-125) -/

/-- EXIF Flash values (`exif_flash_enum`, src/exif-writer.py:37-65). -/
def exif_flash_enum : List (Int × String) := [
  (0,  "No Flash"),
  (1,  "Fired"),
  (5,  "Fired, Return not detected"),
  (7,  "Fired, Return detected"),
  (8,  "On, Did not fire"),
  (9,  "On, Fired"),
  (13, "On, Return not detected"),
  (15, "On, Return detected"),
  (16, "Off, Did not fire"),
  (20, "Off, Did not fire, Return not detected"),
  (24, "Auto, Did not fire"),
  (25, "Auto, Fired"),
  (29, "Auto, Fired, Return not detected"),
  (31, "Auto, Fired, Return detected"),
  (32, "No flash function"),
  (48, "Off, No flash function"),
  (65, "Fired, Red-eye reduction"),
  (69, "Fired, Red-eye reduction, Return not detected"),
  (71, "Fired, Red-eye reduction, Return detected"),
  (73, "On, Red-eye reduction"),
  (77, "On, Red-eye reduction, Return not detected"),
  (79, "On, Red-eye reduction, Return detected"),
  (80, "Off, Red-eye reduction"),
  (88, "Auto, Did not fire, Red-eye reduction"),
  (89, "Auto, Fired, Red-eye reduction"),
  (93, "Auto, Fired, Red-eye reduction, Return not detected"),
  (95, "Auto, Fired, Red-eye reduction, Return detected")]

/-- `exif_flash_enum_fired` (src/exif-writer.py:66). -/
def exif_flash_enum_fired : List Int :=
  [1, 5, 7, 9, 25, 29, 31, 65, 69, 71, 73, 77, 79, 89, 93, 95]

/-- `exif_flash_enum_notfired` (src/exif-writer.py:67). -/
def exif_flash_enum_notfired : List Int := [0, 8, 16, 20, 24, 88]

/-- `exif_flash_enum_notpresent` (src/exif-writer.py:68). -/
def exif_flash_enum_notpresent : List Int := [32, 48]

/-- The key set of the flash enumeration. -/
def flashEnumKeys : List Int := exif_flash_enum.map Prod.fst

/-- Dictionary lookup `exif_flash_enum[n]`. -/
def flashEnumGet (n : Int) : Option String :=
  (exif_flash_enum.find? (fun p => p.1 = n)).map Prod.snd

/-- EXIF Orientation values (`exif_orientation_enum`,
src/exif-writer.py:71-80). -/
def exif_orientation_enum : List (Int × String) := [
  (1, "Horizontal (normal)"),
  (2, "Mirror horizontal"),
  (3, "Rotate 180"),
  (4, "Mirror vertical"),
  (5, "Mirror horizontal and rotate 270 CW"),
  (6, "Rotate 90 CW"),
  (7, "Mirror horizontal and rotate 90 CW"),
  (8, "Rotate 270 CW")]

/-- Dictionary lookup `exif_orientation_enum[n]`. -/
def orientationEnumGet (n : Int) : Option String :=
  (exif_orientation_enum.find? (fun p => p.1 = n)).map Prod.snd

/-- `exif_filesource_enum[1]` (src/exif-writer.py:92-96). -/
def exif_filesource_scanner : String := "Film Scanner"

/-- `exif_gps_altituderef_enum` entries 0 and 1 (src/exif-writer.py:112-117). -/
def exif_gps_altituderef_above : String := "Above Sea Level"

/-- `exif_gps_altituderef_enum[1]`. -/
def exif_gps_altituderef_below : String := "Below Sea Level"

/-- `exif_gps_processingmethod_enum[3]` (src/exif-writer.py:120-125). -/
def exif_gps_processingmethod_manual : String := "MANUAL"

/-- Check if flash was fired (`exif_flash_fired`, src/exif-writer.py:325-340).
The function raises `ValueError` on unknown values, returns `True`/`False`
on the fired / not-fired / no-flash-function sets, and for the remaining
valid enumeration codes falls off the end, returning Python `None`
(modelled as `Option.none` inside the `ok` result).  A Python `bool` input
reaches the `isinstance(..., int)` branch because `bool` is a subclass of
`int`. -/
def exif_flash_fired (v : Value) : Except String (Option Bool) :=
  let keyE : Except String Int :=
    match v with
    | .int n =>
      if flashEnumKeys.contains n then .ok n
      else .error "Unknown EXIF Flash value."
    | .bool b =>
      let n : Int := if b then 1 else 0
      if flashEnumKeys.contains n then .ok n
      else .error "Unknown EXIF Flash value."
    | .str s =>
      match exif_flash_enum.find? (fun p => p.2 = s) with
      | some p => .ok p.1
      | none => .error "Unknown EXIF Flash value."
    | _ => .error "Invalid EXIF Flash value type."
  match keyE with
  | .error e => .error e
  | .ok key =>
    if exif_flash_enum_fired.contains key then .ok (some true)
    else if exif_flash_enum_notfired.contains key then .ok (some false)
    else if exif_flash_enum_notpresent.contains key then .ok (some false)
    else .ok none

/- ## Merge policy (src/exif-writer.py:775-792) -/

/-- The positional array merge inside `metadata_update`: elements of the
increment overwrite `value_old` by index and extra elements are appended
(the loop at src/exif-writer.py:782-786). -/
def posmerge : List Value → List Value → List Value
  | old, [] => old
  | [], n :: ns => n :: posmerge [] ns
  | _ :: os, n :: ns => n :: posmerge os ns

/-- One iteration of the `metadata_update` loop for the pair
`(key, value_new)` (src/exif-writer.py:776-792). -/
def metadata_update_step (allow_new_tags : Bool) (base : Store) (key : String)
    (value_new : Value) : Store :=
  match dictGet base key with
  | some value_old =>
    if tag_iswritable key base then
      match value_old.seqElems, value_new.seqElems with
      | some old, some new => dictSet base key (mkSeq value_old.seqKind (posmerge old new))
      | _, _ => dictSet base key value_new
    else base
  | none =>
    if allow_new_tags || pyStartsWith key "Extra:" then dictSet base key value_new
    else base

/-- Update existing metadata (`metadata_update`, src/exif-writer.py:775-792). -/
def metadata_update (base update : Store) (allow_new_tags : Bool) : Store :=
  update.foldl (fun b kv => metadata_update_step allow_new_tags b kv.1 kv.2) base

/- ## Default tag store (`metadata_default`, src/exif-writer.py:128-198) -/

/-- The compiled-in default tag store (`metadata_default`,
src/exif-writer.py:128-198), in source order. -/
def metadata_default : Store := [
  ("Script:LockTagList",         .bool false),
  ("ImageTransform:Enabled",     .bool false),
  ("ImageTransform:Crop",        .list [.int 0, .int 0, .int 4096, .int 2656]),
  ("ImageTransform:Rotate",      .int 0),
  ("ImageTransform:Flip",        .list [.bool false, .bool false]),
  ("ImageTransform:Compression", .list [.str "none", .pynone]),
  ("DocumentName",               .marker .AUTO),
  ("ImageDescription",           .str ""),
  ("Make",                       .marker .MANDATORY),
  ("Model",                      .marker .MANDATORY),
  ("Orientation",                .str "Horizontal (normal)"),
  ("ModifyDate",                 .marker .AUTO),
  ("Artist",                     .str ""),
  ("Copyright",                  .marker .OPTIONAL),
  ("ExposureTime",               .marker .OPTIONAL),
  ("FNumber",                    .marker .OPTIONAL),
  ("ISO",                        .marker .OPTIONAL),
  ("DateTimeOriginal",           .marker .MANDATORY),
  ("CreateDate",                 .marker .AUTO),
  ("OffsetTime",                 .marker .AUTO),
  ("OffsetTimeOriginal",         .marker .OPTIONAL),
  ("OffsetTimeDigitized",        .marker .AUTO),
  ("ShutterSpeedValue",          .marker .AUTO),
  ("ApertureValue",              .marker .AUTO),
  ("EXIF:Flash",                 .marker .OPTIONAL),
  ("FocalLength",                .marker .OPTIONAL),
  ("ImageNumber",                .marker .OPTIONAL),
  ("ImageHistory",               .str ""),
  ("MakerNotes:All",             .marker .DELETE),
  ("UserComment",                .str ""),
  ("ColorSpace",                 .marker .MANDATORY),
  ("ExifImageWidth",             .marker .AUTO),
  ("ExifImageHeight",            .marker .AUTO),
  ("FileSource",                 .str "Film Scanner"),
  ("ExposureMode",               .marker .SKIP),
  ("WhiteBalance",               .marker .SKIP),
  ("FocalLengthIn35mmFormat",    .marker .OPTIONAL),
  ("OwnerName",                  .marker .SKIP),
  ("SerialNumber",               .marker .SKIP),
  ("LensInfo",                   .marker .OPTIONAL),
  ("LensMake",                   .marker .OPTIONAL),
  ("LensModel",                  .marker .OPTIONAL),
  ("LensSerialNumber",           .marker .OPTIONAL),
  ("ImageTitle",                 .str ""),
  ("Photographer",               .marker .OPTIONAL),
  ("ImageEditor",                .marker .OPTIONAL),
  ("ReelName",                   .marker .OPTIONAL),
  ("ImageHistory:Film",          .marker .OPTIONAL),
  ("GPSLatitudeRef",             .marker .AUTO),
  ("GPSLatitude",                .marker .OPTIONAL),
  ("GPSLongitudeRef",            .marker .AUTO),
  ("GPSLongitude",               .marker .OPTIONAL),
  ("GPSAltitudeRef",             .marker .AUTO),
  ("GPSAltitude",                .marker .OPTIONAL),
  ("GPSProcessingMethod",        .marker .AUTO),
  ("Extra:FileID",               .str ""),
  ("Extra:FilePath",             .str ""),
  ("Extra:FileDirectory",        .str ""),
  ("Extra:FileNameBase",         .str ""),
  ("Extra:FileNameExtension",    .str ""),
  ("Extra:FilmID",               .str ""),
  ("Extra:FilmFrameNumber",      .int 0),
  ("Extra:StripID",              .str ""),
  ("Extra:StripFrameNumber",     .int 0)]

/- ## Directory metadata files (`metadata_get_file`, src/exif-writer.py:453-484) -/

/-- Python `s.endswith(p)`. -/
def pyEndsWith (s p : String) : Bool := leads p.data.reverse s.data.reverse

/-- `ast.literal_eval` on the scalar literal forms that occur in directory
metadata files: booleans, `None`, integers, decimal floats and
single/double-quoted strings.  Anything else (in particular a marker
display form such as `<MANDATORY>`, which is not a valid Python literal)
fails, modelling the `ValueError`/`SyntaxError` branch. -/
def pyLiteralEvalScalar (s : String) : Option Value :=
  if s = "True" then some (.bool true)
  else if s = "False" then some (.bool false)
  else if s = "None" then some .pynone
  else
    match pyInt? s with
    | some n => some (.int n)
    | none =>
      match pyFloat? s with
      | some q => some (.float q)
      | none =>
        if s.length ≥ 2 &&
            ((pyStartsWith s (String.mk [apos]) && pyEndsWith s (String.mk [apos])) ||
             (pyStartsWith s "\"" && pyEndsWith s "\"")) then
          some (.str ((s.drop 1).dropRight 1))
        else none

/-- `ast.literal_eval` extended with flat list/tuple literals whose elements
are scalars (the only container form used by the metadata files, e.g.
`[0, 0, 4096, 2656]`); nested containers are out of scope. -/
def pyLiteralEval (s : String) : Option Value :=
  match pyLiteralEvalScalar s with
  | some v => some v
  | none =>
    let parseElems : String → Option (List Value) := fun inner =>
      if pyStrip inner = "" then some []
      else (pySplitChar inner ',').mapM (fun e => pyLiteralEvalScalar (pyStrip e))
    if s.length ≥ 2 && pyStartsWith s "[" && pyEndsWith s "]" then
      (parseElems ((s.drop 1).dropRight 1)).map Value.list
    else if s.length ≥ 2 && pyStartsWith s "(" && pyEndsWith s ")" then
      (parseElems ((s.drop 1).dropRight 1)).map Value.tuple
    else none

/-- One line of the `metadata_get_file` read loop
(src/exif-writer.py:458-473), with `strip_whitespace = True` (the default,
used by every caller).  Note the faithful rendering of the marker loop: the
`continue` at line 469 continues the `for marker in Marker` loop, not the
outer line loop, so after a marker display form is matched and assigned,
control still falls through to the `ast.literal_eval` branch, whose result
(the literal string, since a marker display form is not a valid literal)
overwrites the marker assignment. -/
def metadata_get_file_line (result : Store) (line : String) : Store :=
  if line.length > 0 then
    if pyStartsWith (pyLstrip line) "#" || pyStartsWith (pyLstrip line) ";" then result
    else if !(pyContainsChar line '=') then result
    else
      match pySplitChar1 line '=' with
      | [k, v] =>
        let key := pyStrip k
        let value := pyStrip v
        let result := Marker.all.foldl
          (fun r m => if value = m.display then dictSet r key (.marker m) else r) result
        match pyLiteralEval value with
        | some lit => dictSet result key lit
        | none => dictSet result key (.str value)
      | _ => result
  else result

/-- Get metadata from a file (`metadata_get_file`,
src/exif-writer.py:453-484), modelled on the file's lines (newlines already
split off; the I/O and encoding handling are outside the model).  After the
read loop, `ImageTransform:Enabled` is implied by the presence of any
`ImageTransform:` key (src/exif-writer.py:475-479). -/
def metadata_get_file (lines : List String) : Store :=
  let result := lines.foldl metadata_get_file_line []
  if !containsKey result "ImageTransform:Enabled" &&
      result.any (fun kv => pyStartsWith kv.1 "ImageTransform:") then
    dictSet result "ImageTransform:Enabled" (.bool true)
  else result

/- ## Filename stem decomposition (src/exif-writer.py:523-532) -/

/-- `matchAt sep xs i` : the pattern `sep` occurs in `xs` at position `i`. -/
def matchAt (sep xs : List Char) (i : Nat) : Bool := leads sep (xs.drop i)

/-- Scan positions `i, i-1, ..., 0` and return the first (hence highest)
position where `sep` occurs; models the right-to-left search of
`str.rsplit(sep, 1)`. -/
def scanDown (sep xs : List Char) : Nat → Option Nat
  | 0 => if matchAt sep xs 0 then some 0 else none
  | i + 1 => if matchAt sep xs (i + 1) then some (i + 1) else scanDown sep xs i

/-- Position of the last occurrence of `sep` in `xs` (Python `str.rfind`),
`none` when `sep` does not occur. -/
def lastOcc (sep xs : List Char) : Option Nat := scanDown sep xs xs.length

/-- Python `sub in s` / `s.find(sub) >= 0` for a multi-character pattern. -/
def hasSub (sep xs : List Char) : Bool := (lastOcc sep xs).isSome

/-- The filename stem decomposition of `metadata_get_path`
(src/exif-writer.py:523-532): the optional `file_id` and the metadata
segment.  When the stem has no double-underscore the whole stem becomes
`file_id` and the metadata segment is empty; otherwise the stem is split at
the last double-underscore, the left part becoming `file_id` when
non-empty. -/
def split_basename (file_name : String) : Option String × String :=
  if !hasSub ['_', '_'] file_name.data then
    (some file_name, "")
  else
    match lastOcc ['_', '_'] file_name.data with
    | some i =>
      let left := (file_name.data.take i).asString
      let right := (file_name.data.drop (i + 2)).asString
      (if left.length > 0 then some left else none, right)
    | none => (some file_name, "")

/- ## Filename grammar token decoding (src/exif-writer.py:534-718) -/

/-- The structured result of one token of the encoded metadata segment:
which decoder variable(s) the token sets.  `datetimeTok`'s first component
is `none` when the datetime part before `@` was empty (the source then
leaves the empty string in the variable unparsed); `ignored` models a token
whose leading character matches no rule (skipped, not an error). -/
inductive Token where
  | film (id : String) (frame : Option Int)
  | strip (id : String) (frame : Option Int)
  | imageNumber (n : Int)
  | cropTok (vals : List Int)
  | rotateFlip (rotate : Int) (flipH flipV : Bool)
  | compression (id : String)
  | exposure (t : Rat)
  | aperture (f : Rat)
  | isoTok (n : Int)
  | flash (n : Int)
  | orientation (n : Int)
  | focalLength (n : Int)
  | camera (model maker : Option String)
  | datetimeTok (dt : Option (List Int)) (offset : Option (List Int))
  | gnss (lat lon : Rat) (alt : Option Rat)
  | imageTitle (s : String)
  | imageDescription (s : String)
  | userComment (s : String)
  | ignored

/-- Payload of an `F`/`S` token: `<id>[-<frame>]` split at the last dash
(src/exif-writer.py:538-553). -/
def parse_id_frame (v : String) : Except String (String × Option Int) :=
  match pyRsplitChar1 v '-' with
  | [id] => .ok (id, none)
  | [id, fr] =>
    if fr.length > 0 then do
      let n ← str2int fr
      pure (id, some n)
    else .error "Error! Frame number value not specified."
  | _ => .error "unreachable"

/-- Payload of a `D` token (src/exif-writer.py:652-679). -/
def parse_datetime (v : String) : Except String Token := do
  let tmp := pySplitChar1 v '@'
  let dtStr := pyStrip (tmp.headD "")
  let offStr : Option String :=
    match tmp with
    | [_, o] => if pyStrip o ≠ "" then some (pyStrip o) else none
    | _ => none
  let dt : Option (List Int) ←
    if dtStr ≠ "" then do
      let nums ← (pySplitChar dtStr '-').mapM str2int
      let nums := nums ++ List.replicate (6 - nums.length) 0
      if !(0 ≤ nums.headD 0 && nums.headD 0 ≤ 9999) then
        .error "Error! Datetime year must be 4 digits long."
      else if !((nums.drop 1).all (fun x => 0 ≤ x && x ≤ 99)) then
        .error "Error! Datetime component value (except year) must be 2 digits long."
      else pure (some nums)
    else pure none
  let off : Option (List Int) ←
    match offStr with
    | some o => do
      let nums ← (pySplitChar1 o '-').mapM str2int
      let nums := nums ++ List.replicate (2 - nums.length) 0
      if !((-24 : Int) ≤ nums.headD 0 && nums.headD 0 ≤ 24) then
        .error "Error! Datetime offset hours must within plus-minus 24."
      else if !((0 : Int) ≤ nums.getD 1 0 && nums.getD 1 0 ≤ 59) then
        .error "Error! Datetime offset minutes must be between 0 and 59."
      else pure (some nums)
    | none => pure none
  pure (.datetimeTok dt off)

/-- Payload of a `G` token (src/exif-writer.py:681-706). -/
def parse_gnss (v : String) : Except String Token := do
  let parts := pySplitChar (pyReplace v " " "") ','
  if 2 ≤ parts.length ∧ parts.length ≤ 3 then do
    let p0 := parts.headD ""
    let (s0, sgn0) : String × Rat :=
      if pyStartsWith p0 "N" then (p0.drop 1, 1)
      else if pyStartsWith p0 "S" then (p0.drop 1, -1)
      else (p0, 1)
    let lat0 ← str2float s0
    let p1 := parts.getD 1 ""
    let (s1, sgn1) : String × Rat :=
      if pyStartsWith p1 "E" then (p1.drop 1, 1)
      else if pyStartsWith p1 "W" then (p1.drop 1, -1)
      else (p1, 1)
    let lon0 ← str2float s1
    let alt ←
      if parts.length > 2 then do
        let a ← str2float (parts.getD 2 "")
        pure (some a)
      else pure none
    pure (.gnss (sgn0 * lat0) (sgn1 * lon0) alt)
  else .error "Error! GPS location cannot be parsed."

/-- One token of the metadata segment, dispatched by leading character in
the source's scan order (the `for entry in metadata` body,
src/exif-writer.py:536-718).  Each branch ends in `continue` (or raises),
so the chain of `startswith` tests is an if/elif chain; in particular the
image-description rule for prefix `N` at line 712 sits after the
image-number rule for the same prefix at line 556. -/
def parse_token (entry : String) : Except String Token :=
  if pyStartsWith entry "F" then do
    let (id, fr) ← parse_id_frame (entry.drop 1)
    pure (.film id fr)
  else if pyStartsWith entry "S" then do
    let (id, fr) ← parse_id_frame (entry.drop 1)
    pure (.strip id fr)
  else if pyStartsWith entry "N" then
    let v := entry.drop 1
    if v ≠ "" then do
      let n ← str2int v
      pure (.imageNumber n)
    else .error "Error! Image number value not specified."
  else if pyStartsWith entry "C" then
    let v := entry.drop 1
    if v ≠ "" then do
      let vals ← (pySplitChar v '-').mapM str2int
      if vals.any (fun x => x < 0) then .error "Error! Crop values cannot be negative."
      else pure (.cropTok vals)
    else .error "Error! Crop value not specified."
  else if pyStartsWith entry "R" then
    let v := entry.drop 1
    let fh := pyContainsChar v 'H'
    let v := if fh then pyReplace v "H" "" else v
    let fv := pyContainsChar v 'V'
    let v := if fv then pyReplace v "V" "" else v
    if v = "90CW" then .ok (.rotateFlip 90 fh fv)
    else if v = "90CCW" then .ok (.rotateFlip 270 fh fv)
    else do
      let r ← str2int v
      pure (.rotateFlip r fh fv)
  else if pyStartsWith entry "Z" then
    let v := entry.drop 1
    if v ≠ "" then .ok (.compression v)
    else .error "Error! Compression identifier not specified."
  else if pyStartsWith entry "T" then
    let v := entry.drop 1
    if v ≠ "" then
      if pyStartsWith v (String.mk [apos]) then do
        let n ← str2int (v.drop 1)
        pure (.exposure (-(n : Rat)))
      else do
        let q ← str2float v
        pure (.exposure q)
    else .error "Error! Exposure time value not specified."
  else if pyStartsWith entry "A" then
    let v := entry.drop 1
    if v ≠ "" then do
      let q ← str2float v
      pure (.aperture q)
    else .error "Error! Aperture value not specified."
  else if pyStartsWith entry "I" then
    let v := entry.drop 1
    if v ≠ "" then do
      let n ← str2int v
      pure (.isoTok n)
    else .error "Error! ISO value not specified."
  else if pyStartsWith entry "X" then
    let v := entry.drop 1
    if v ≠ "" then do
      let n ← str2int v
      pure (.flash n)
    else .error "Error! Flash value not specified."
  else if pyStartsWith entry "O" then
    let v := entry.drop 1
    if v ≠ "" then do
      let n ←
        if v = "90CW" then pure (6 : Int)
        else if v = "90CCW" then pure (8 : Int)
        else if v = "180" then pure (3 : Int)
        else str2int v
      if 1 ≤ n ∧ n ≤ 8 then pure (.orientation n)
      else .error "Error! Invalid orientation value."
    else .error "Error! Orientation value not specified."
  else if pyStartsWith entry "L" then
    let v := entry.drop 1
    if v ≠ "" then do
      let n ← str2int v
      pure (.focalLength n)
    else .error "Error! Lens focal length value not specified."
  else if pyStartsWith entry "M" then
    let camera := pySplitChar1 (entry.drop 1) '@'
    let model := if (camera.headD "") ≠ "" then some (camera.headD "") else none
    let maker :=
      if camera.length > 1 ∧ (camera.getD 1 "") ≠ "" then some (camera.getD 1 "") else none
    .ok (.camera model maker)
  else if pyStartsWith entry "D" then
    let v := entry.drop 1
    if v ≠ "" then parse_datetime v
    else .error "Error! Datetime value not specified."
  else if pyStartsWith entry "G" then
    parse_gnss (entry.drop 1)
  else if pyStartsWith entry "H" then
    .ok (.imageTitle (pyReplace (entry.drop 1) "&#95;" "_"))
  else if pyStartsWith entry "N" then
    .ok (.imageDescription (pyReplace (entry.drop 1) "&#95;" "_"))
  else if pyStartsWith entry "U" then
    .ok (.userComment (pyReplace (entry.drop 1) "&#95;" "_"))
  else .ok .ignored

/- ## Image geometric transform (`image_transform`, src/exif-writer.py:377-405) -/

/-- `np.rot90` (one counterclockwise quarter turn) on a row-major raster. -/
def rot90 {α : Type} (m : List (List α)) : List (List α) :=
  (List.transpose m).reverse

/-- Apply `rot90` `k` times. -/
def iterRot {α : Type} : Nat → List (List α) → List (List α)
  | 0, m => m
  | k + 1, m => iterRot k (rot90 m)

/-- Transform the image (`image_transform`, src/exif-writer.py:377-405) on a
row-major raster (numpy `shape[0]` = number of rows, `shape[1]` = length of
the first row).  Width or height `0` is replaced by the full image extent in
that axis before the bounds checks; rotation must be a multiple of 90; the
crop, rotate, horizontal flip, vertical flip order is fixed.
`rotate_cw = none` models Python `None` (the parameter default), and `0` is
falsy in `if rotate_cw:`. -/
def image_transform {α : Type} (image : List (List α))
    (crop_left crop_top crop_width crop_height : Int)
    (rotate_cw : Option Int) (flip_horizontal flip_vertical : Bool) :
    Except String (List (List α)) :=
  let rows : Int := image.length
  let cols : Int := (image.headD []).length
  let w := if crop_width = 0 then cols else crop_width
  let h := if crop_height = 0 then rows else crop_height
  if w ≤ 0 ∨ h ≤ 0 then .error "Error! Crop region size is invalid."
  else if crop_left < 0 ∨ crop_top < 0 ∨ rows < crop_top + h ∨ cols < crop_left + w then
    .error "Error! Crop region is outside image boundaries."
  else
    let cropped := ((image.drop crop_top.toNat).take h.toNat).map
      (fun r => (r.drop crop_left.toNat).take w.toNat)
    let rotated : Except String (List (List α)) :=
      match rotate_cw with
      | none => .ok cropped
      | some rc =>
        if rc = 0 then .ok cropped
        else if rc.emod 90 ≠ 0 then
          .error "Error! Rotate can only be performed by multiple of 90 degrees."
        else .ok (iterRot (((-rc).fdiv 90).emod 4).toNat cropped)
    match rotated with
    | .error e => .error e
    | .ok m =>
      let m := if flip_horizontal then m.map List.reverse else m
      let m := if flip_vertical then m.reverse else m
      .ok m

/- ## Auto-fill resolver (`metadata_autofill`, src/exif-writer.py:795-901) -/

/-- Python `metadata.get(k)`: absent keys yield `None`, which is
indistinguishable from a stored `None`. -/
def pyGet (md : Store) (k : String) : Value := (dictGet md k).getD .pynone

/-- Python `metadata.get(k) == Marker.m` (absent → `None`, never equal to a
marker). -/
def getEqMarker (md : Store) (k : String) (m : Marker) : Bool :=
  (pyGet md k).eqMarker m

/-- Python `x is None`. -/
def Value.isNone : Value → Bool
  | .pynone => true
  | _ => false

/-- Numeric view used for `isinstance(x, (float, int))` branches: floats,
ints, and bools (a Python `bool` is an `int`). -/
def Value.asNum : Value → Option Rat
  | .float q => some q
  | .int n => some n
  | .bool b => some (if b then 1 else 0)
  | _ => none

/-- Python unary minus preserving the numeric type. -/
def Value.pyNeg : Value → Value
  | .int n => .int (-n)
  | .float q => .float (-q)
  | .bool b => .int (-(if b then (1 : Int) else 0))
  | v => v

/-- `^\d{4}:\d{2}:\d{2} \d{2}:\d{2}:\d{2}$` (the `datetime_regex` of
src/exif-writer.py:1050), checked positionally. -/
def datetimeRegexMatch (s : String) : Bool :=
  let l := s.data
  l.length = 19 &&
  [0, 1, 2, 3, 5, 6, 8, 9, 11, 12, 14, 15, 17, 18].all (fun i => (l.getD i ' ').isDigit) &&
  [4, 7, 13, 16].all (fun i => l.getD i ' ' = ':') &&
  l.getD 10 ' ' = ' '

/-- Numeric value of the digits at positions `[i, i+n)` (only used under a
`datetimeRegexMatch` guard). -/
def sliceNat (l : List Char) (i n : Nat) : Nat :=
  ((l.drop i).take n).foldl (fun a c => a * 10 + (c.toNat - 48)) 0

/-- Gregorian leap year. -/
def isLeap (y : Nat) : Bool := y % 4 = 0 && (y % 100 ≠ 0 || y % 400 = 0)

/-- Days in a month. -/
def daysInMonth (y m : Nat) : Nat :=
  if m = 2 then (if isLeap y then 29 else 28)
  else if m = 4 || m = 6 || m = 9 || m = 11 then 30
  else 31

/-- `datetime.strptime(s, "%Y:%m:%d %H:%M:%S")` succeeds (on the
zero-padded 19-character shape; `strptime`'s tolerance for non-padded
fields is not needed by the modelled call sites). -/
def strptimeOk (s : String) : Bool :=
  datetimeRegexMatch s &&
  (let l := s.data
   let y := sliceNat l 0 4
   let mo := sliceNat l 5 2
   let d := sliceNat l 8 2
   let h := sliceNat l 11 2
   let mi := sliceNat l 14 2
   let sec := sliceNat l 17 2
   1 ≤ y && 1 ≤ mo && mo ≤ 12 && 1 ≤ d && d ≤ daysInMonth y mo &&
   h ≤ 23 && mi ≤ 59 && sec ≤ 59)

/-- The ambient data `metadata_autofill` reads from outside the tag store:
the current local time (`datetime.now().astimezone()` rendered by
`strftime`), the image dimensions of the staged file, and the digitization
date reported by the metadata tool together with the local-zone offset of
that instant. -/
structure AfEnv where
  nowDate : String
  nowOffset : String
  imageWidth : Int
  imageHeight : Int
  createDateRaw : String
  localOffset : String

/-- `DocumentName` auto-fill (src/exif-writer.py:796-805).  The
`f"{film_id}-{film_frame:02d}_S{strip_id}-{strip_frame}"` format requires
an integer for the `:02d` field. -/
def af_docname (md : Store) : Except String Store :=
  if getEqMarker md "DocumentName" .AUTO then
    let film_id := pyGet md "Extra:FilmID"
    let film_frame := pyGet md "Extra:FilmFrameNumber"
    let strip_id := pyGet md "Extra:StripID"
    let strip_frame := pyGet md "Extra:StripFrameNumber"
    if !film_id.isNone && !film_frame.isNone && !strip_id.isNone && !strip_frame.isNone then
      match film_frame with
      | .int n =>
        .ok (dictSet md "DocumentName"
          (.str (pyStr film_id ++ "-" ++ padZeros (toString n) 2 ++ "_S" ++
                 pyStr strip_id ++ "-" ++ pyStr strip_frame)))
      | _ => .error "ValueError: format 02d requires an integer"
    else .ok (dictSet md "DocumentName" (.str ""))
  else .ok md

/-- `ModifyDate` / `OffsetTime` auto-fill (src/exif-writer.py:807-812). -/
def af_modifydate (env : AfEnv) (md : Store) : Store :=
  if getEqMarker md "ModifyDate" .AUTO then
    let md := dictSet md "ModifyDate" (.str env.nowDate)
    if tag_iswritable "OffsetTime" md && getEqMarker md "OffsetTime" .AUTO then
      dictSet md "OffsetTime" (.str (env.nowOffset.take 3 ++ ":" ++ env.nowOffset.drop 3))
    else md
  else md

/-- `ShutterSpeedValue` auto-fill (src/exif-writer.py:814-815): the value of
`ExposureTime` — whatever it currently is, marker or literal — with `SKIP`
as the absent-key default. -/
def af_shutter (md : Store) : Store :=
  if getEqMarker md "ShutterSpeedValue" .AUTO then
    dictSet md "ShutterSpeedValue" ((dictGet md "ExposureTime").getD (.marker .SKIP))
  else md

/-- `ApertureValue` auto-fill (src/exif-writer.py:817-818). -/
def af_aperture (md : Store) : Store :=
  if getEqMarker md "ApertureValue" .AUTO then
    dictSet md "ApertureValue" ((dictGet md "FNumber").getD (.marker .SKIP))
  else md

/-- `ExifImageWidth` auto-fill (src/exif-writer.py:820-823). -/
def af_width (env : AfEnv) (md : Store) : Store :=
  if getEqMarker md "ExifImageWidth" .AUTO then
    dictSet md "ExifImageWidth" (.int env.imageWidth)
  else md

/-- `ExifImageHeight` auto-fill (src/exif-writer.py:825-828). -/
def af_height (env : AfEnv) (md : Store) : Store :=
  if getEqMarker md "ExifImageHeight" .AUTO then
    dictSet md "ExifImageHeight" (.int env.imageHeight)
  else md

/-- `CreateDate` / `OffsetTimeDigitized` auto-fill
(src/exif-writer.py:830-842): the metadata tool's `ModifyDate` with dots
normalized to colons; the offset companion is derived only when the
normalized date parses, a `ValueError` being swallowed. -/
def af_createdate (env : AfEnv) (md : Store) : Store :=
  if getEqMarker md "CreateDate" .AUTO then
    let cd := pyReplace env.createDateRaw "." ":"
    let md := dictSet md "CreateDate" (.str cd)
    if getEqMarker md "OffsetTimeDigitized" .AUTO then
      if strptimeOk cd then
        dictSet md "OffsetTimeDigitized"
          (.str (env.localOffset.take 3 ++ ":" ++ env.localOffset.drop 3))
      else md
    else md
  else md

/-- `GPSLatitudeRef` auto-fill (src/exif-writer.py:843-861).  Only `str` and
`float` are accepted for a non-marker latitude (an `int` raises). -/
def af_gpslat (md : Store) : Except String Store :=
  if getEqMarker md "GPSLatitudeRef" .AUTO then
    let gps := pyGet md "GPSLatitude"
    if !gps.isMarkerVal then
      match gps with
      | .str s =>
        if pyStartsWith s "N" || pyStartsWith s "S" then
          match str2float (s.drop 1) with
          | .ok q =>
            .ok (dictSet (dictSet md "GPSLatitudeRef" (.str (s.take 1))) "GPSLatitude" (.float q))
          | .error e => .error e
        else .error "Error! GPS latitude cannot be parsed."
      | .float q =>
        if 0 ≤ q then .ok (dictSet md "GPSLatitudeRef" (.str "N"))
        else .ok (dictSet (dictSet md "GPSLatitudeRef" (.str "S")) "GPSLatitude" (.float (-q)))
      | _ => .error "Error! GPS latitude cannot be processed."
    else .ok (dictSet md "GPSLatitudeRef" (.marker .SKIP))
  else .ok md

/-- `GPSLongitudeRef` auto-fill (src/exif-writer.py:863-881): here both
`float` and `int` (hence `bool`) are accepted as numeric. -/
def af_gpslon (md : Store) : Except String Store :=
  if getEqMarker md "GPSLongitudeRef" .AUTO then
    let gps := pyGet md "GPSLongitude"
    if !gps.isMarkerVal then
      match gps with
      | .str s =>
        if pyStartsWith s "E" || pyStartsWith s "W" then
          match str2float (s.drop 1) with
          | .ok q =>
            .ok (dictSet (dictSet md "GPSLongitudeRef" (.str (s.take 1))) "GPSLongitude" (.float q))
          | .error e => .error e
        else .error "Error! GPS longitude cannot be parsed."
      | v =>
        match v.asNum with
        | some q =>
          if 0 ≤ q then .ok (dictSet md "GPSLongitudeRef" (.str "E"))
          else .ok (dictSet (dictSet md "GPSLongitudeRef" (.str "W")) "GPSLongitude" v.pyNeg)
        | none => .error "Error! GPS longitude cannot be processed."
    else .ok (dictSet md "GPSLongitudeRef" (.marker .SKIP))
  else .ok md

/-- `GPSAltitudeRef` auto-fill (src/exif-writer.py:883-895). -/
def af_gpsalt (md : Store) : Except String Store :=
  if getEqMarker md "GPSAltitudeRef" .AUTO then
    let gps := pyGet md "GPSAltitude"
    if !gps.isMarkerVal then
      match gps.asNum with
      | some q =>
        if 0 ≤ q then .ok (dictSet md "GPSAltitudeRef" (.str exif_gps_altituderef_above))
        else .ok (dictSet (dictSet md "GPSAltitudeRef" (.str exif_gps_altituderef_below))
                    "GPSAltitude" gps.pyNeg)
      | none => .error "Error! GPS altitude cannot be processed."
    else .ok (dictSet md "GPSAltitudeRef" (.marker .SKIP))
  else .ok md

/-- `GPSProcessingMethod` auto-fill (src/exif-writer.py:897-901). -/
def af_gpsproc (md : Store) : Store :=
  if getEqMarker md "GPSProcessingMethod" .AUTO then
    if !((dictGet md "GPSLatitude").getD (.marker .SKIP)).isMarkerVal &&
       !((dictGet md "GPSLongitude").getD (.marker .SKIP)).isMarkerVal then
      dictSet md "GPSProcessingMethod" (.str exif_gps_processingmethod_manual)
    else dictSet md "GPSProcessingMethod" (.marker .SKIP)
  else md

/-- Fill metadata tags with values set to AUTO with actual data
(`metadata_autofill`, src/exif-writer.py:795-901), with the ambient reads
supplied by `AfEnv`; type errors in the GPS branches are fatal. -/
def metadata_autofill (env : AfEnv) (md : Store) : Except String Store :=
  match af_docname md with
  | .error e => .error e
  | .ok md =>
    let md := af_modifydate env md
    let md := af_shutter md
    let md := af_aperture md
    let md := af_width env md
    let md := af_height env md
    let md := af_createdate env md
    match af_gpslat md with
    | .error e => .error e
    | .ok md =>
      match af_gpslon md with
      | .error e => .error e
      | .ok md =>
        match af_gpsalt md with
        | .error e => .error e
        | .ok md => .ok (af_gpsproc md)

/- ## Conditional device rules (`metadata_update_conditional`,
src/exif-writer.py:924-950) -/

/-- Update metadata values based on conditions
(`metadata_update_conditional`, src/exif-writer.py:924-950): the
Panasonic C-(D)325EF fixed-lens rule.  The aperture constant is `5.6` when
`exif_flash_fired` returns `True` and `9.0` when it returns `False` — or
`None`, which is equally falsy in `if 'EXIF:Flash' in metadata and
exif_flash_fired(...)`. -/
def metadata_update_conditional (md : Store) : Except String Store :=
  if (pyGet md "Make").eqStr "Panasonic" &&
     ((pyGet md "Model").eqStr "C-D325EF" || (pyGet md "Model").eqStr "C-325EF") then
    let md :=
      if tag_iswritable "EXIF:Flash" md && (pyGet md "EXIF:Flash").isMarkerVal then
        dictSet md "EXIF:Flash" (.str "Auto, Did not fire")
      else md
    let md := if tag_iswritable "ExposureTime" md then dictSet md "ExposureTime" (.str "1/130") else md
    let md :=
      if tag_iswritable "ShutterSpeedValue" md then dictSet md "ShutterSpeedValue" (.str "1/130")
      else md
    let firedE : Except String (Option Bool) :=
      if containsKey md "EXIF:Flash" then exif_flash_fired (pyGet md "EXIF:Flash")
      else .ok none
    match firedE with
    | .error e => .error e
    | .ok fired =>
      let ap : Rat := if fired.getD false then (5.6 : Rat) else 9
      let md := if tag_iswritable "FNumber" md then dictSet md "FNumber" (.float ap) else md
      let md := if tag_iswritable "ApertureValue" md then dictSet md "ApertureValue" (.float ap) else md
      let md := if tag_iswritable "FocalLength" md then dictSet md "FocalLength" (.float 34) else md
      let md :=
        if tag_iswritable "FocalLengthIn35mmFormat" md then
          dictSet md "FocalLengthIn35mmFormat" (.float 34)
        else md
      let md :=
        if tag_iswritable "LensInfo" md then
          dictSet md "LensInfo" (.list [.float 34, .float 34, .float (5.6 : Rat), .float (5.6 : Rat)])
        else md
      let md := if tag_iswritable "LensMake" md then dictSet md "LensMake" (.str "Panasonic") else md
      let md :=
        if tag_iswritable "LensModel" md then
          dictSet md "LensModel" (.str "Built-in, fixed-focus prime lens (1.3m-inf.)")
        else md
      .ok md
  else .ok md

/- ## ImageHistory rendering (`format_nested_dict` and
`metadata_update_imagehistory`, src/exif-writer.py:343-374, 904-921) -/

/-- A nested dictionary of tag groups (the intermediate structure of
`format_nested_dict.nest_keys`). -/
inductive NDict where
  | leaf (v : Value)
  | node (entries : List (String × NDict))

/-- Lookup in a nested-dict entry list. -/
def ndLookup : List (String × NDict) → String → Option NDict
  | [], _ => none
  | (k', v) :: rest, k => if k' = k then some v else ndLookup rest k

/-- Dict assignment in a nested-dict entry list. -/
def ndSet : List (String × NDict) → String → NDict → List (String × NDict)
  | [], k, v => [(k, v)]
  | (k', v') :: rest, k, v =>
    if k' = k then (k, v) :: rest else (k', v') :: ndSet rest k v

/-- Insert one colon-split key path (`nest_keys`,
src/exif-writer.py:351-360).  `none` models the source failing on a
leaf/group key conflict (never reached by its callers). -/
def ndInsert : List (String × NDict) → List String → Value → Option (List (String × NDict))
  | entries, [last], v => some (ndSet entries last (.leaf v))
  | entries, part :: rest, v =>
    match ndLookup entries part with
    | some (.node sub) => (ndInsert sub rest v).map (fun sub2 => ndSet entries part (.node sub2))
    | some (.leaf _) => none
    | none => (ndInsert [] rest v).map (fun sub2 => entries ++ [(part, .node sub2)])
  | entries, [], _ => some entries

/-- `nest_keys` over a flat store. -/
def nest_keys (flat : Store) : Option (List (String × NDict)) :=
  flat.foldlM (fun acc kv => ndInsert acc (pySplitChar kv.1 ':') kv.2) []

mutual

/-- `render` (src/exif-writer.py:362-371) with the default formatting
parameters. -/
def ndRender (d : List (String × NDict)) (indent : String) : String :=
  String.intercalate "\n" (ndRenderLines d indent)

/-- The `lines` list built by `render`. -/
def ndRenderLines : List (String × NDict) → String → List String
  | [], _ => []
  | (key, .leaf v) :: rest, indent =>
    (indent ++ key ++ ": " ++ pyStr v ++ ";") :: ndRenderLines rest indent
  | (key, .node sub) :: rest, indent =>
    (indent ++ key ++ ": " ++ "\x7b") ::
    ndRender sub (indent ++ "    ") ::
    (indent ++ "\x7d" ++ ";") ::
    ndRenderLines rest indent

end

/-- Format flat dictionary with nested key groups into a string
(`format_nested_dict`, src/exif-writer.py:343-374, default parameters). -/
def format_nested_dict (flat : Store) : Option String :=
  (nest_keys flat).map (fun n => ndRender n "")

/-- Python `s.split(c, 2)`. -/
def pySplitChar2 (s : String) (c : Char) : List String :=
  match splitFirst c s.data with
  | none => [s]
  | some (l, r) =>
    match splitFirst c r with
    | none => [l.asString, r.asString]
    | some (l2, r2) => [l.asString, l2.asString, r2.asString]

/-- Update value of the `ImageHistory` tag (`metadata_update_imagehistory`,
src/exif-writer.py:904-921): split the current value at up to two `^`
characters (a third part is dropped), gather the non-marker
`ImageHistory:`-group (prefix stripped) and `Scanner:`-group (full key)
tags, and splice their rendering between the first two parts.  The source
indexes `metadata['ImageHistory'].split(...)`, so a non-string value is a
fatal type error. -/
def metadata_update_imagehistory (md : Store) : Except String Store :=
  match pyGet md "ImageHistory" with
  | .str s =>
    let ih := pySplitChar2 s '^'
    let ih := if ih.length = 1 then ih ++ [""] else ih
    let ihd : Store := md.foldl
      (fun acc kv =>
        if pyStartsWith kv.1 "ImageHistory:" && !kv.2.isMarkerVal then
          dictSet acc (kv.1.drop "ImageHistory:".length) kv.2
        else acc) []
    let ihd : Store := md.foldl
      (fun acc kv =>
        if pyStartsWith kv.1 "Scanner:" && !kv.2.isMarkerVal then dictSet acc kv.1 kv.2
        else acc) ihd
    match format_nested_dict ihd with
    | some rendered =>
      .ok (dictSet md "ImageHistory" (.str ((ih.headD "") ++ rendered ++ (ih.getD 1 ""))))
    | none => .error "AttributeError: nested key conflict"
  | _ => .error "AttributeError: ImageHistory is not a string"

/- ## Emission: building the metadata tool argument list
(src/exif-writer.py:1021-1064) -/

/-- Delete keys with specified prefixes (`delete_keys_with_prefixes`,
src/exif-writer.py:260-263). -/
def delete_keys_with_pfx (md : Store) (pfxs : List String) : Store :=
  md.filter (fun kv => !(pfxs.any (fun p => pyStartsWith kv.1 p)))

/-- The loop body of the tag-argument construction
(src/exif-writer.py:1026-1059), one recursive step per store entry, the
accumulated argument list threaded through.  `DELETE` emits a removal
argument; `SKIP`/`OPTIONAL` emit nothing; `AUTO` prints a warning and falls
through to the formatting code; `MANDATORY` raises, abandoning the loop
before the tool is ever invoked (the subprocess call sits after the loop at
line 1064).  Lists join to a space-separated string; the empty string uses
the force-empty form; the three datetime tags use the raw assignment form
when syntactically valid but semantically impossible — the regex match
crashes there on a non-string value (`TypeError` in the source). -/
def emit_tag_args : List (String × Value) → List String → Except String (List String)
  | [], acc => .ok acc
  | (tag_name, tag_value) :: rest, acc =>
    if tag_value.eqMarker .DELETE then emit_tag_args rest (acc ++ ["-" ++ tag_name ++ "="])
    else if tag_value.eqMarker .SKIP || tag_value.eqMarker .OPTIONAL then emit_tag_args rest acc
    else if tag_value.eqMarker .MANDATORY then
      .error ("Error! Mandatory tag " ++ tag_name ++ " value not assigned.")
    else
      let tv : Value :=
        match tag_value.seqElems with
        | some items => .str (pyStrip (items.foldl (fun s it => s ++ pyStr it ++ " ") ""))
        | none => tag_value
      let tv : Value :=
        match tv with
        | .str s => .str (pyReplace s "\n" "&#xd;&#xa;")
        | v => v
      if tv.eqStr "" then emit_tag_args rest (acc ++ ["-" ++ tag_name ++ "^="])
      else if tag_name = "DateTimeOriginal" || tag_name = "ModifyDate" || tag_name = "CreateDate" then
        match tv with
        | .str s =>
          if datetimeRegexMatch s && !strptimeOk s then
            emit_tag_args rest (acc ++ ["-" ++ tag_name ++ "#=" ++ s])
          else emit_tag_args rest (acc ++ ["-" ++ tag_name ++ "=" ++ s])
        | _ => .error "TypeError: datetime_regex.match expects a string"
      else emit_tag_args rest (acc ++ ["-" ++ tag_name ++ "=" ++ pyStr tv])

/-- The full argument construction of the write-EXIF step: the fixed
`['-E', '-overwrite_original']` head followed by the per-tag arguments (the
output path appended at line 1060 is outside the tag model). -/
def emit_args (md : Store) : Except String (List String) :=
  emit_tag_args md ["-E", "-overwrite_original"]

/- ## Per-file processing skeleton (`process_file`, src/exif-writer.py:953-1065) -/

/-- Ambient inputs of one `process_file` run: whether the temp location
resolves (src/exif-writer.py:955-965), the scanner-extracted increment
(`metadata_get_scanner`, pure exiftool I/O), the input raster, the
auto-fill ambient data, and whether the final metadata tool invocation
succeeds.  The intermediate exiftool calls of the transform branch
(ICC extraction and tag restore) are modelled as succeeding; their failure
would only abort earlier, before the move. -/
structure PEnv where
  tempOk : Bool
  scannerMeta : Store
  image : List (List Int)
  afEnv : AfEnv
  toolOk : Bool

/-- Observable per-file filesystem outcome: the error (if any), whether a
temp file is left behind, whether a file sits at the final destination
path, and whether the metadata tool completed writing the tag set there. -/
structure PResult where
  err : Option String
  tempStaged : Bool
  destOccupied : Bool
  destTagged : Bool

/-- The transform branch of `process_file` (src/exif-writer.py:976-1010):
popping the `ImageTransform:` parameters from the store and, when enabled,
cropping/rotating/flipping via `image_transform`.  Returns the store after
the pops; an error aborts before the temp file is written. -/
def transform_stage (env : PEnv) (md : Store) : Except String Store :=
  let (enabled, md) := dictPop md "ImageTransform:Enabled"
  if pyTruthy (enabled.getD (.bool false)) then
    let (cropV, md) := dictPop md "ImageTransform:Crop"
    let cropV := (cropV.getD (.list [.int 0, .int 0, .int 0, .int 0]))
    let (rotV, md) := dictPop md "ImageTransform:Rotate"
    let rotV := rotV.getD (.int 0)
    let (flipV, md) := dictPop md "ImageTransform:Flip"
    let flipV := flipV.getD (.list [.bool false, .bool false])
    let (_cmpV, md) := dictPop md "ImageTransform:Compression"
    match cropV.seqElems with
    | none => .error "TypeError: crop parameters are not subscriptable"
    | some crop =>
      if crop.length < 4 then .error "IndexError: crop parameters"
      else
        match (crop.take 4).mapM (fun v => match v with | .int n => some n | _ => none) with
        | none => .error "TypeError: crop parameters must be integers"
        | some cs =>
          match rotV with
          | .int rc =>
            match flipV.seqElems with
            | none => .error "TypeError: flip parameters are not subscriptable"
            | some flips =>
              match image_transform env.image (cs.getD 0 0) (cs.getD 1 0) (cs.getD 2 0)
                      (cs.getD 3 0) (some rc) (pyTruthy (flips.getD 0 (.bool false)))
                      (pyTruthy (flips.getD 1 (.bool false))) with
              | .ok _ => .ok md
              | .error e => .error e
          | _ => .error "TypeError: rotate parameter must be an integer"
  else .ok md

/-- The metadata phases of `process_file` that run before the temp file is
written: scanner metadata merge (forced `allow_new_tags = True`,
src/exif-writer.py:971), `ImageHistory` update when writable (line 972),
conditional device rules (line 973) and the transform parameter handling of
the staging branch (lines 976-1010).  Any error here aborts with no temp
file written and the destination untouched. -/
def process_premove (env : PEnv) (metadata : Store) : Except String Store :=
  let md := metadata_update metadata env.scannerMeta true
  match (if tag_iswritable "ImageHistory" md then metadata_update_imagehistory md
         else .ok md) with
  | .error e => .error e
  | .ok md =>
    match metadata_update_conditional md with
    | .error e => .error e
    | .ok md => transform_stage env md

/-- Process image file (`process_file`, src/exif-writer.py:953-1065),
tracking the filesystem-visible effects.  Step order, faithful to the
source: temp-path resolution; the pre-move metadata phases
(`process_premove`); staging of the temp file; auto-fill; the
`shutil.move` of the temp file to the destination (line 1019) — which
happens BEFORE the extra-tag stripping, the per-tag argument construction
with its MANDATORY validation, and the final tool invocation (lines
1022-1064). -/
def process_file_model (env : PEnv) (metadata : Store) : PResult :=
  if !env.tempOk then ⟨some "FileNotFoundError: temp directory", false, false, false⟩
  else
    match process_premove env metadata with
    | .error e => ⟨some e, false, false, false⟩
    | .ok md =>
      match metadata_autofill env.afEnv md with
      | .error e => ⟨some e, true, false, false⟩
      | .ok md =>
        let md := delete_keys_with_pfx md
          ["ImageTransform:", "Script:", "Scanner:", "ImageHistory:", "Extra:"]
        match emit_args md with
        | .error e => ⟨some e, false, true, false⟩
        | .ok _args =>
          if env.toolOk then ⟨none, false, true, true⟩
          else ⟨some "ToolError: exiftool returned nonzero", false, true, false⟩

/- ## Shared lemmas on stores and the merge policy -/

instance exceptDecEq {ε α : Type} [DecidableEq ε] [DecidableEq α] :
    DecidableEq (Except ε α) := fun a b =>
  match a, b with
  | .ok x, .ok y =>
    if h : x = y then isTrue (by rw [h])
    else isFalse (by intro hh; injection hh; contradiction)
  | .error x, .error y =>
    if h : x = y then isTrue (by rw [h])
    else isFalse (by intro hh; injection hh; contradiction)
  | .ok _, .error _ => isFalse (by intro hh; exact Except.noConfusion hh)
  | .error _, .ok _ => isFalse (by intro hh; exact Except.noConfusion hh)

theorem dictGet_dictSet_self (s : Store) (k : String) (v : Value) :
    dictGet (dictSet s k v) k = some v := by
  induction s with
  | nil => simp [dictSet, dictGet]
  | cons hd tl ih =>
    obtain ⟨k0, v0⟩ := hd
    by_cases h : k0 = k
    · subst h
      simp [dictSet, dictGet]
    · simp [dictSet, dictGet, h, ih]

theorem dictGet_dictSet_ne (s : Store) {k' k : String} (v : Value) (h : k' ≠ k) :
    dictGet (dictSet s k' v) k = dictGet s k := by
  induction s with
  | nil => simp [dictSet, dictGet, h]
  | cons hd tl ih =>
    obtain ⟨k0, v0⟩ := hd
    by_cases h0 : k0 = k'
    · subst h0
      simp [dictSet, dictGet, h]
    · simp [dictSet, dictGet, h0, ih]

theorem dictGet_ite_dictSet_ne (c : Prop) [Decidable c] (s : Store) {k' k : String}
    (v : Value) (h : k' ≠ k) :
    dictGet (if c then dictSet s k' v else s) k = dictGet s k := by
  by_cases hc : c
  · simp only [if_pos hc]
    exact dictGet_dictSet_ne s v h
  · simp [hc]

theorem tag_iswritable_of_get {md : Store} {k : String} {v : Value}
    (h : dictGet md k = some v) :
    tag_iswritable k md = (!v.eqMarker .SKIP && !v.eqMarker .DELETE) := by
  simp [tag_iswritable, h]

theorem update_step_get_ne (a : Bool) (b : Store) {k1 k : String} (v1 : Value)
    (h : k1 ≠ k) :
    dictGet (metadata_update_step a b k1 v1) k = dictGet b k := by
  unfold metadata_update_step
  split
  · split
    · split
      · exact dictGet_dictSet_ne _ _ h
      · exact dictGet_dictSet_ne _ _ h
    · rfl
  · split
    · exact dictGet_dictSet_ne _ _ h
    · rfl

theorem metadata_update_cons (base : Store) (k1 : String) (v1 : Value) (tl : Store)
    (a : Bool) :
    metadata_update base ((k1, v1) :: tl) a =
    metadata_update (metadata_update_step a base k1 v1) tl a := by
  simp [metadata_update]

/-- C5: for every tag store, every increment and every `allow_new_tags`
flag, a tag whose current value is the `SKIP` marker (likewise `DELETE`) is
left unchanged by `metadata_update`, whatever the increment maps that tag
to: `tag_iswritable` is false for such a tag, so the merge loop never
touches it. -/
theorem c5_skip_tag_never_altered (base upd : Store) (allow : Bool) (k : String)
    (v : Value) (hget : dictGet base k = some v)
    (hm : v.eqMarker .SKIP = true ∨ v.eqMarker .DELETE = true) :
    dictGet (metadata_update base upd allow) k = some v := by
  induction upd generalizing base with
  | nil => simpa [metadata_update] using hget
  | cons hd tl ih =>
    obtain ⟨k1, v1⟩ := hd
    rw [metadata_update_cons]
    apply ih
    by_cases hk : k1 = k
    · subst hk
      unfold metadata_update_step
      rw [hget]
      have hw : tag_iswritable k1 base = false := by
        rw [tag_iswritable_of_get hget]
        rcases hm with h | h <;> simp [h]
      rw [hw]
      simpa using hget
    · rw [update_step_get_ne _ _ _ hk]
      exact hget

theorem c5_skip_tag_never_altered_witness :
    dictGet [("ExposureMode", Value.marker .SKIP)] "ExposureMode"
        = some (Value.marker .SKIP) ∧
    dictGet (metadata_update [("ExposureMode", Value.marker .SKIP)]
        [("ExposureMode", Value.int 5)] true) "ExposureMode"
        = some (Value.marker .SKIP) :=
  ⟨rfl, c5_skip_tag_never_altered _ _ _ _ _ rfl (Or.inl rfl)⟩

/- ## Per-key semantics of the merge step (derived characterization) -/

/-- The effect of one `metadata_update` iteration on the looked-up value of
its own key: a derived per-key characterization of `metadata_update_step`
(not itself a source translation), proved equal to it in
`update_step_get_self`. -/
def updVal (allow : Bool) (k : String) (o : Option Value) (vnew : Value) : Option Value :=
  match o with
  | some vold =>
    if vold.eqMarker .SKIP || vold.eqMarker .DELETE then some vold
    else
      match vold.seqElems, vnew.seqElems with
      | some old, some new => some (mkSeq vold.seqKind (posmerge old new))
      | _, _ => some vnew
  | none => if allow || pyStartsWith k "Extra:" then some vnew else none

theorem updVal_none_eq (a : Bool) (k : String) (v : Value) :
    updVal a k none v = if (a || pyStartsWith k "Extra:") then some v else none := rfl

theorem updVal_some_eq (a : Bool) (k : String) (vold v : Value) :
    updVal a k (some vold) v =
    if (vold.eqMarker .SKIP || vold.eqMarker .DELETE) then some vold
    else
      match vold.seqElems, v.seqElems with
      | some old, some new => some (mkSeq vold.seqKind (posmerge old new))
      | _, _ => some v := rfl

theorem update_step_get_self (a : Bool) (b : Store) (k : String) (v : Value) :
    dictGet (metadata_update_step a b k v) k = updVal a k (dictGet b k) v := by
  cases hg : dictGet b k with
  | none =>
    simp only [metadata_update_step, hg, updVal_none_eq]
    by_cases hc : (a || pyStartsWith k "Extra:") = true
    · simp only [hc, if_true, dictGet_dictSet_self]
    · simp only [Bool.not_eq_true] at hc
      simp only [hc, Bool.false_eq_true, if_false]
      exact hg
  | some vold =>
    simp only [metadata_update_step, hg, updVal_some_eq, tag_iswritable_of_get hg]
    by_cases hw : (vold.eqMarker .SKIP || vold.eqMarker .DELETE) = true
    · have h1 : (!vold.eqMarker .SKIP && !vold.eqMarker .DELETE) = false := by
        rcases Bool.or_eq_true_iff.mp hw with h | h <;> simp [h]
      simp only [h1, Bool.false_eq_true, if_false, hw, if_true]
      exact hg
    · simp only [Bool.not_eq_true] at hw
      have h1 : (!vold.eqMarker .SKIP && !vold.eqMarker .DELETE) = true := by
        rcases Bool.or_eq_false_iff.mp hw with ⟨h1, h2⟩
        simp [h1, h2]
      simp only [h1, if_true, hw, Bool.false_eq_true, if_false]
      cases ho : vold.seqElems with
      | none => cases hn : v.seqElems <;> simp [dictGet_dictSet_self]
      | some old => cases hn : v.seqElems <;> simp [dictGet_dictSet_self]

theorem update_get_notin (b upd : Store) (a : Bool) (k : String)
    (h : ∀ p ∈ upd, p.1 ≠ k) :
    dictGet (metadata_update b upd a) k = dictGet b k := by
  induction upd generalizing b with
  | nil => rfl
  | cons hd tl ih =>
    obtain ⟨k1, v1⟩ := hd
    rw [metadata_update_cons]
    rw [ih _ (fun p hp => h p (List.mem_cons_of_mem _ hp))]
    exact update_step_get_ne _ _ _ (h (k1, v1) (List.mem_cons_self _ _))

theorem update_get_mem (b upd : Store) (a : Bool) (k : String) (v : Value)
    (hnd : (upd.map Prod.fst).Nodup) (hmem : (k, v) ∈ upd) :
    dictGet (metadata_update b upd a) k = updVal a k (dictGet b k) v := by
  induction upd generalizing b with
  | nil => cases hmem
  | cons hd tl ih =>
    obtain ⟨k1, v1⟩ := hd
    rw [metadata_update_cons]
    simp only [List.map_cons, List.nodup_cons] at hnd
    rcases List.mem_cons.mp hmem with heq | htl
    · injection heq with hk hv
      subst hk
      subst hv
      have hrest : ∀ p ∈ tl, p.1 ≠ k := by
        intro p hp hpk
        exact hnd.1 (hpk ▸ List.mem_map_of_mem Prod.fst hp)
      rw [update_get_notin _ _ _ _ hrest]
      exact update_step_get_self a b k v
    · have hk1 : k1 ≠ k := by
        intro h
        subst h
        exact hnd.1 (List.mem_map_of_mem Prod.fst htl)
      rw [ih _ hnd.2 htl, update_step_get_ne _ _ _ hk1]

theorem posmerge_eq (old new : List Value) :
    posmerge old new = new ++ old.drop new.length := by
  induction new generalizing old with
  | nil => simp [posmerge]
  | cons n ns ih =>
    cases old with
    | nil => simp [posmerge, ih]
    | cons o os => simp [posmerge, ih]

theorem seqElems_mkSeq (kind : Bool) (xs : List Value) :
    (mkSeq kind xs).seqElems = some xs := by
  cases kind <;> rfl

theorem seqKind_mkSeq (kind : Bool) (xs : List Value) :
    (mkSeq kind xs).seqKind = kind := by
  cases kind <;> rfl

theorem eqMarker_mkSeq (kind : Bool) (xs : List Value) (m : Marker) :
    (mkSeq kind xs).eqMarker m = false := by
  cases kind <;> rfl

theorem mkSeq_of_seqElems {v : Value} {xs : List Value} (h : v.seqElems = some xs) :
    mkSeq v.seqKind xs = v := by
  cases v <;> simp_all [Value.seqElems, Value.seqKind, mkSeq]

theorem eqMarker_of_seqElems {v : Value} {xs : List Value} (h : v.seqElems = some xs)
    (m : Marker) : v.eqMarker m = false := by
  cases v <;> simp_all [Value.seqElems, Value.eqMarker]

theorem posmerge_self (xs : List Value) : posmerge xs xs = xs := by
  rw [posmerge_eq]
  simp

theorem updVal_some_self (a : Bool) (k : String) (v : Value) :
    updVal a k (some v) v = some v := by
  rw [updVal_some_eq]
  by_cases hw : (v.eqMarker .SKIP || v.eqMarker .DELETE) = true
  · simp [hw]
  · simp only [Bool.not_eq_true] at hw
    cases hs : v.seqElems with
    | none => simp [hw, hs]
    | some xs => simp [hw, hs, posmerge_self, mkSeq_of_seqElems hs]

theorem updVal_idem (a : Bool) (k : String) (o : Option Value) (v : Value) :
    updVal a k (updVal a k o v) v = updVal a k o v := by
  cases o with
  | none =>
    by_cases hc : (a || pyStartsWith k "Extra:") = true
    · have h1 : updVal a k none v = some v := by
        rw [updVal_none_eq]
        simp [hc]
      rw [h1, updVal_some_self]
    · simp only [Bool.not_eq_true] at hc
      have h1 : updVal a k none v = none := by
        rw [updVal_none_eq]
        simp [hc]
      rw [h1, h1]
  | some vold =>
    by_cases hw : (vold.eqMarker .SKIP || vold.eqMarker .DELETE) = true
    · have h1 : updVal a k (some vold) v = some vold := by
        rw [updVal_some_eq]
        simp [hw]
      rw [h1, h1]
    · simp only [Bool.not_eq_true] at hw
      cases ho : vold.seqElems with
      | some old =>
        cases hn : v.seqElems with
        | some new =>
          have h1 : updVal a k (some vold) v = some (mkSeq vold.seqKind (posmerge old new)) := by
            rw [updVal_some_eq]
            simp [hw, ho, hn]
          rw [h1]
          have h2 : updVal a k (some (mkSeq vold.seqKind (posmerge old new))) v
              = some (mkSeq vold.seqKind (posmerge (posmerge old new) new)) := by
            rw [updVal_some_eq]
            simp [eqMarker_mkSeq, seqElems_mkSeq, seqKind_mkSeq, hn]
          rw [h2]
          have h3 : posmerge (posmerge old new) new = posmerge old new := by
            rw [posmerge_eq old new, posmerge_eq, List.drop_left]
          rw [h3]
        | none =>
          have h1 : updVal a k (some vold) v = some v := by
            rw [updVal_some_eq]
            simp [hw, ho, hn]
          rw [h1, updVal_some_self]
      | none =>
        cases hn : v.seqElems with
        | none =>
          have h1 : updVal a k (some vold) v = some v := by
            rw [updVal_some_eq]
            simp [hw, ho, hn]
          rw [h1, updVal_some_self]
        | some new =>
          have h1 : updVal a k (some vold) v = some v := by
            rw [updVal_some_eq]
            simp [hw, ho, hn]
          rw [h1, updVal_some_self]

/-- C6: (a) applying `metadata_update` with the same increment twice yields
the same store, observed through lookups, as applying it once; in
particular for non-list tags where it is a plain overwrite.  (b) When both
the old and the new value are ordered sequences, the positional merge
produces the increment's elements followed by the surviving tail of the
base's elements (overwrite by index, append extras), never shrinks the
list, and keeps the base value's list-vs-tuple container kind. -/
theorem c6_merge_idempotent_and_list_merge :
    (∀ (base inc : Store) (allow : Bool) (k : String),
      (inc.map Prod.fst).Nodup →
      dictGet (metadata_update (metadata_update base inc allow) inc allow) k
        = dictGet (metadata_update base inc allow) k) ∧
    (∀ (base inc : Store) (allow : Bool) (k : String) (vold vnew : Value)
      (old new : List Value),
      (inc.map Prod.fst).Nodup → (k, vnew) ∈ inc →
      dictGet base k = some vold → vold.seqElems = some old → vnew.seqElems = some new →
      dictGet (metadata_update base inc allow) k
        = some (mkSeq vold.seqKind (new ++ old.drop new.length)) ∧
      old.length ≤ (new ++ old.drop new.length).length) := by
  constructor
  · intro base inc allow k hnd
    by_cases hk : ∃ v, (k, v) ∈ inc
    · obtain ⟨v, hv⟩ := hk
      rw [update_get_mem _ _ _ _ _ hnd hv, update_get_mem _ _ _ _ _ hnd hv, updVal_idem]
    · have h : ∀ p ∈ inc, p.1 ≠ k := by
        intro p hp hpk
        exact hk ⟨p.2, by rwa [← hpk, Prod.mk.eta]⟩
      rw [update_get_notin _ _ _ _ h]
  · intro base inc allow k vold vnew old new hnd hmem hget ho hn
    constructor
    · rw [update_get_mem _ _ _ _ _ hnd hmem, hget, updVal_some_eq]
      have hm' : (vold.eqMarker .SKIP || vold.eqMarker .DELETE) = false := by
        rw [eqMarker_of_seqElems ho, eqMarker_of_seqElems ho]
        rfl
      simp [hm', ho, hn, posmerge_eq]
    · simp only [List.length_append, List.length_drop]
      omega

theorem c6_merge_idempotent_and_list_merge_witness :
    (dictGet (metadata_update (metadata_update [("LensInfo", Value.tuple [.int 1, .int 2, .int 3])]
        [("LensInfo", Value.list [.int 9])] true) [("LensInfo", Value.list [.int 9])] true) "LensInfo"
      = dictGet (metadata_update [("LensInfo", Value.tuple [.int 1, .int 2, .int 3])]
        [("LensInfo", Value.list [.int 9])] true) "LensInfo") ∧
    (dictGet (metadata_update [("LensInfo", Value.tuple [.int 1, .int 2, .int 3])]
        [("LensInfo", Value.list [.int 9])] true) "LensInfo"
      = some (mkSeq (Value.tuple [.int 1, .int 2, .int 3]).seqKind
          ([Value.int 9] ++ [Value.int 1, .int 2, .int 3].drop [Value.int 9].length))) :=
  ⟨c6_merge_idempotent_and_list_merge.1 [("LensInfo", Value.tuple [.int 1, .int 2, .int 3])]
      [("LensInfo", Value.list [.int 9])] true "LensInfo" (by simp),
   (c6_merge_idempotent_and_list_merge.2 [("LensInfo", Value.tuple [.int 1, .int 2, .int 3])]
      [("LensInfo", Value.list [.int 9])] true "LensInfo"
      (Value.tuple [.int 1, .int 2, .int 3]) (Value.list [.int 9])
      [Value.int 1, .int 2, .int 3] [Value.int 9] (by simp)
      (List.mem_singleton.mpr rfl) rfl rfl rfl).1⟩

/-- A minimal store for the Panasonic C-(D)325EF conditional rule with a
given flash display string and a writable `FNumber`. -/
def c10store (s : String) : Store :=
  [("Make", .str "Panasonic"), ("Model", .str "C-D325EF"),
   ("EXIF:Flash", .str s), ("FNumber", .marker .OPTIONAL)]

/-- C10: `exif_flash_fired` raises for every integer outside the flash
enumeration, returns `True` on the fired set and `False` on the not-fired
and no-flash-function sets, but falls off the end returning Python `None`
for the valid codes 13, 15 and 80; the Panasonic conditional rule consuming
it then picks the flash-not-fired aperture constant 9.0 for those codes —
the same constant as for a genuinely not-fired code — because `None` is
falsy. -/
theorem c10_flash_fired_none_gap :
    (∀ n : Int, flashEnumKeys.contains n = false →
      exif_flash_fired (.int n) = .error "Unknown EXIF Flash value.") ∧
    (∀ n ∈ exif_flash_enum_fired, exif_flash_fired (.int n) = .ok (some true)) ∧
    (∀ n : Int, n ∈ exif_flash_enum_notfired ∨ n ∈ exif_flash_enum_notpresent →
      exif_flash_fired (.int n) = .ok (some false)) ∧
    (exif_flash_fired (.int 13) = .ok none ∧ exif_flash_fired (.int 15) = .ok none ∧
      exif_flash_fired (.int 80) = .ok none) ∧
    (∀ s ∈ ["On, Return not detected", "On, Return detected", "Off, Red-eye reduction"],
      ∃ m, metadata_update_conditional (c10store s) = .ok m ∧
        dictGet m "FNumber" = some (.float 9)) ∧
    (∃ m, metadata_update_conditional (c10store "Auto, Did not fire") = .ok m ∧
      dictGet m "FNumber" = some (.float 9)) := by
  refine ⟨?_, ?_, ?_, ?_, ?_, ?_⟩
  · intro n h
    unfold exif_flash_fired
    have h' : ¬ n ∈ flashEnumKeys := by simpa using h
    simp [h']
  · decide
  · intro n h
    rcases h with h | h <;> revert n h <;> decide
  · exact ⟨rfl, rfl, rfl⟩
  · intro s hs
    simp only [List.mem_cons, List.mem_singleton, List.not_mem_nil, or_false] at hs
    rcases hs with rfl | rfl | rfl
    · exact ⟨_, rfl, rfl⟩
    · exact ⟨_, rfl, rfl⟩
    · exact ⟨_, rfl, rfl⟩
  · exact ⟨_, rfl, rfl⟩

theorem c10_flash_fired_none_gap_witness :
    exif_flash_fired (.int 2) = .error "Unknown EXIF Flash value." ∧
    exif_flash_fired (.int 1) = .ok (some true) ∧
    exif_flash_fired (.int 24) = .ok (some false) ∧
    (metadata_update_conditional (c10store "On, Return not detected")).map
      (fun m => dictGet m "FNumber") = .ok (some (.float 9)) := by
  refine ⟨c10_flash_fired_none_gap.1 2 (by decide),
    c10_flash_fired_none_gap.2.1 1 (by decide),
    c10_flash_fired_none_gap.2.2.1 24 (Or.inl (by decide)), ?_⟩
  obtain ⟨m, hm, hf⟩ :=
    c10_flash_fired_none_gap.2.2.2.2.1 "On, Return not detected" (by simp)
  rw [hm]
  show Except.ok (dictGet m "FNumber") = _
  rw [hf]

/- ## C8: the two `N` rules of the token decoder -/

theorem pyStartsWith_char (s : String) (b : Char) (bs : List Char) (h : s.data = b :: bs)
    (p : String) (c : Char) (hp : p.data = [c]) :
    pyStartsWith s p = decide (c = b) := by
  unfold pyStartsWith
  rw [h, hp]
  simp [leads]

/-- C8: every token whose first character is `N` is handled by the earlier
image-number rule of the decoder's scan order — parsed with `str2int`, a
decode error when the payload is empty or not a valid integer — and the
later image-description rule for the same prefix is unreachable: no
`N`-token ever produces an image description. -/
theorem c8_image_number_rule_shadows_description (s : String) (rest : List Char)
    (h : s.data = 'N' :: rest) :
    (parse_token s =
      (if s.drop 1 = "" then .error "Error! Image number value not specified."
       else
         match str2int (s.drop 1) with
         | .ok n => .ok (.imageNumber n)
         | .error e => .error e)) ∧
    (∀ d, parse_token s ≠ .ok (.imageDescription d)) := by
  have hF : pyStartsWith s "F" = false := by
    rw [pyStartsWith_char s 'N' rest h "F" 'F' rfl]
    decide
  have hS : pyStartsWith s "S" = false := by
    rw [pyStartsWith_char s 'N' rest h "S" 'S' rfl]
    decide
  have hN : pyStartsWith s "N" = true := by
    rw [pyStartsWith_char s 'N' rest h "N" 'N' rfl]
    decide
  have hmain : parse_token s =
      (if s.drop 1 = "" then .error "Error! Image number value not specified."
       else
         match str2int (s.drop 1) with
         | .ok n => .ok (.imageNumber n)
         | .error e => .error e) := by
    unfold parse_token
    rw [hF, hS, hN]
    simp only [Bool.false_eq_true, if_false, if_true]
    by_cases hv : s.drop 1 = ""
    · simp [hv]
    · simp only [hv, if_neg, ne_eq, not_false_eq_true, if_true]
      cases hse : str2int (s.drop 1) with
      | ok n => rfl
      | error e => rfl
  refine ⟨hmain, ?_⟩
  intro d
  rw [hmain]
  by_cases hv : s.drop 1 = ""
  · simp [hv]
  · simp only [hv, if_false]
    cases hse : str2int (s.drop 1) with
    | ok n => simp
    | error e => simp

theorem c8_image_number_rule_shadows_description_witness :
    ("N12" : String).data = 'N' :: ['1', '2'] ∧
    parse_token "N12" ≠ .ok (.imageDescription "12") :=
  ⟨rfl, (c8_image_number_rule_shadows_description "N12" ['1', '2'] rfl).2 "12"⟩

/- ## C7: zero crop extents in `image_transform` -/

/-- C7 counterexample: with the in-bounds offset `left = 1` on a 1-by-2
raster, crop width `0` does NOT crop "the full remaining extent from the
offset" (which would yield `[[2]]`): the code substitutes the full image
width before the bounds check, which therefore fails, and the call raises. -/
theorem c7_crop_zero_counterexample :
    image_transform [[(1 : Int), 2]] 1 0 0 1 none false false
      = .error "Error! Crop region is outside image boundaries." ∧
    image_transform [[(1 : Int), 2]] 1 0 0 1 none false false ≠ .ok [[2]] :=
  ⟨rfl, by decide⟩

/-- C7 amended: a crop width (resp. height) of `0` resolves to the full
image extent in that axis — not the remaining extent from the offset — so
together with a positive left (resp. top) offset the bounds check always
fails; with both offsets `0` (and in particular for crop `(0,0,0,0)` with
no rotation and no flips on a nonempty rectangular raster) the whole input
raster is returned unchanged. -/
theorem c7_crop_zero_amended :
    (∀ (m : List (List Int)) (C : Nat), 0 < m.length → 0 < C →
      (∀ r ∈ m, r.length = C) →
      image_transform m 0 0 0 0 none false false = .ok m) ∧
    (∀ (m : List (List Int)) (left top h : Int) (rot : Option Int) (fh fv : Bool),
      0 < left → ∃ e, image_transform m left top 0 h rot fh fv = .error e) ∧
    (∀ (m : List (List Int)) (left top w : Int) (rot : Option Int) (fh fv : Bool),
      0 < top → ∃ e, image_transform m left top w 0 rot fh fv = .error e) := by
  refine ⟨?_, ?_, ?_⟩
  · intro m C hm hC hreg
    have hcols : (m.headD []).length = C := by
      cases m with
      | nil => simp at hm
      | cons r t => exact hreg r (List.mem_cons_self r t)
    unfold image_transform
    dsimp only
    rw [if_pos rfl, if_pos rfl]
    rw [if_neg (by rw [hcols]; omega)]
    rw [if_neg (by omega)]
    have hcrop : ((m.drop (Int.toNat 0)).take (Int.toNat (m.length : Int))).map
        (fun r => (r.drop (Int.toNat 0)).take (Int.toNat ((m.headD []).length : Int))) = m := by
      rw [hcols]
      simp only [Int.toNat_zero, List.drop_zero, Int.toNat_natCast, List.take_length]
      have : ∀ r ∈ m, (r.take (Int.toNat (C : Int))) = r := by
        intro r hr
        rw [Int.toNat_natCast, ← hreg r hr, List.take_length]
      calc m.map (fun r => r.take (Int.toNat (C : Int))) = m.map id := List.map_congr_left this
        _ = m := List.map_id m
    rw [hcrop]
    simp
  · intro m left top h rot fh fv hl
    unfold image_transform
    dsimp only
    rw [if_pos rfl]
    by_cases h1 : (((m.headD []).length : Int) ≤ 0 ∨ (if h = 0 then (m.length : Int) else h) ≤ 0)
    · rw [if_pos h1]
      exact ⟨_, rfl⟩
    · rw [if_neg h1, if_pos (by right; right; right; omega)]
      exact ⟨_, rfl⟩
  · intro m left top w rot fh fv ht
    unfold image_transform
    dsimp only
    rw [if_pos rfl]
    by_cases h1 : ((if w = 0 then ((m.headD []).length : Int) else w) ≤ 0 ∨ (m.length : Int) ≤ 0)
    · rw [if_pos h1]
      exact ⟨_, rfl⟩
    · rw [if_neg h1, if_pos (by right; right; left; omega)]
      exact ⟨_, rfl⟩

theorem c7_crop_zero_amended_witness :
    image_transform [[(1 : Int), 2], [3, 4]] 0 0 0 0 none false false = .ok [[1, 2], [3, 4]] ∧
    (image_transform [[(1 : Int), 2], [3, 4]] 1 0 0 2 none false false).isOk = false := by
  refine ⟨c7_crop_zero_amended.1 [[(1 : Int), 2], [3, 4]] 2 (by decide) (by decide) (by decide), ?_⟩
  obtain ⟨e, he⟩ :=
    c7_crop_zero_amended.2.1 [[(1 : Int), 2], [3, 4]] 1 0 2 none false false (by decide)
  rw [he]
  rfl

/- ## C3: the filename stem split -/

theorem leads_elim {p l : List Char} (h : leads p l = true) :
    l = p ++ l.drop p.length := by
  induction p generalizing l with
  | nil => simp
  | cons a as ih =>
    cases l with
    | nil => simp [leads] at h
    | cons b bs =>
      simp only [leads, Bool.and_eq_true, decide_eq_true_eq] at h
      obtain ⟨rfl, h2⟩ := h
      simpa using ih h2

theorem scanDown_some {sep xs : List Char} {i j : Nat}
    (h : scanDown sep xs i = some j) :
    j ≤ i ∧ matchAt sep xs j = true ∧
      ∀ l, j < l → l ≤ i → matchAt sep xs l = false := by
  induction i with
  | zero =>
    unfold scanDown at h
    cases hm : matchAt sep xs 0 with
    | true =>
      rw [hm, if_pos rfl] at h
      injection h with h
      subst h
      exact ⟨Nat.le_refl 0, hm, fun l h1 h2 => absurd (Nat.lt_of_lt_of_le h1 h2) (Nat.lt_irrefl 0)⟩
    | false => simp [hm] at h
  | succ i ih =>
    unfold scanDown at h
    cases hm : matchAt sep xs (i + 1) with
    | true =>
      rw [hm, if_pos rfl] at h
      injection h with h
      subst h
      exact ⟨Nat.le_refl _, hm, fun l h1 h2 => absurd (Nat.lt_of_lt_of_le h1 h2) (Nat.lt_irrefl _)⟩
    | false =>
      rw [hm] at h
      simp only [Bool.false_eq_true, if_false] at h
      obtain ⟨h1, h2, h3⟩ := ih h
      refine ⟨Nat.le_succ_of_le h1, h2, fun l hl1 hl2 => ?_⟩
      rcases Nat.lt_or_ge l (i + 1) with hlt | hge
      · exact h3 l hl1 (Nat.lt_succ_iff.mp hlt)
      · have : l = i + 1 := Nat.le_antisymm hl2 hge
        rw [this]
        exact hm

theorem matchAt_ge_length {c : Char} {cs xs : List Char} {j : Nat}
    (h : xs.length ≤ j) : matchAt (c :: cs) xs j = false := by
  unfold matchAt
  rw [List.drop_eq_nil_of_le h]
  rfl

/-- C3 counterexample: on a stem with no double-underscore the decoder does
NOT treat the whole stem as the metadata segment with an absent FileID (as
the claim states): it does the opposite, the whole stem becomes the FileID
and the metadata segment is empty. -/
theorem c3_no_sep_counterexample :
    split_basename "abc" = (some "abc", "") ∧
    ¬((split_basename "abc").1 = none ∧ (split_basename "abc").2 = "abc") :=
  ⟨rfl, by decide⟩

/-- C3 amended: a stem with no double-underscore becomes entirely the
FileID, with an empty metadata segment; a stem containing a
double-underscore is split at the LAST occurrence (no later occurrence
exists), the left part becoming the FileID when non-empty (absent when
empty) and the right part the metadata segment. -/
theorem c3_split_basename_amended :
    (∀ s : String, hasSub ['_', '_'] s.data = false → split_basename s = (some s, "")) ∧
    (∀ s : String, hasSub ['_', '_'] s.data = true →
      ∃ pre : List Char,
        s.data = pre ++ ['_', '_'] ++ (split_basename s).2.data ∧
        (split_basename s).1 = (if pre.isEmpty then none else some pre.asString) ∧
        (∀ j, pre.length < j → matchAt ['_', '_'] s.data j = false)) := by
  constructor
  · intro s h
    simp [split_basename, h]
  · intro s h
    obtain ⟨i, hi⟩ : ∃ i, lastOcc ['_', '_'] s.data = some i := by
      unfold hasSub at h
      cases hl : lastOcc ['_', '_'] s.data with
      | none => rw [hl] at h; simp at h
      | some i => exact ⟨i, rfl⟩
    obtain ⟨hle, hmt, hlast⟩ := scanDown_some hi
    have hsplit : split_basename s =
        ((if ((s.data.take i).asString.length > 0 : Prop) then some (s.data.take i).asString
          else none), (s.data.drop (i + 2)).asString) := by
      unfold split_basename hasSub
      rw [hi]
      simp [h, hasSub, hi]
    have hdec2 : s.data.drop i = ['_', '_'] ++ s.data.drop (i + 2) := by
      have h1 := leads_elim (show leads ['_', '_'] (s.data.drop i) = true from hmt)
      rw [h1]
      congr 1
      show (s.data.drop i).drop 2 = s.data.drop (i + 2)
      rw [List.drop_drop, Nat.add_comm]
    refine ⟨s.data.take i, ?_, ?_, ?_⟩
    · rw [hsplit]
      show s.data = s.data.take i ++ ['_', '_'] ++ ((s.data.drop (i + 2)).asString).data
      have hdata : ((s.data.drop (i + 2)).asString).data = s.data.drop (i + 2) := rfl
      rw [hdata]
      conv_lhs => rw [← List.take_append_drop i s.data]
      rw [hdec2, List.append_assoc]
    · rw [hsplit]
      show (if ((s.data.take i).asString.length > 0 : Prop) then some (s.data.take i).asString
            else none) = (if (s.data.take i).isEmpty then none else some (s.data.take i).asString)
      have hlen : ((s.data.take i).asString).length = (s.data.take i).length := rfl
      cases hpre : (s.data.take i).isEmpty with
      | true =>
        have hnil : s.data.take i = [] := by
          cases hq : s.data.take i with
          | nil => rfl
          | cons a l => rw [hq] at hpre; simp [List.isEmpty] at hpre
        rw [hnil]
        simp
      | false =>
        have hpos : 0 < (s.data.take i).length := by
          cases hq : s.data.take i with
          | nil => rw [hq] at hpre; simp [List.isEmpty] at hpre
          | cons a l => simp
        rw [if_pos (by rw [hlen]; exact hpos)]
        simp
    · intro j hj
      have hilen : i ≤ s.data.length := by
        by_contra hcon
        push_neg at hcon
        have : matchAt ['_', '_'] s.data i = false :=
          matchAt_ge_length (Nat.le_of_lt hcon)
        rw [this] at hmt
        exact Bool.noConfusion hmt
      have hpl : (s.data.take i).length = i := by
        rw [List.length_take]
        omega
      rw [hpl] at hj
      rcases Nat.lt_or_ge (s.data.length) j with hbig | hsmall
      · exact matchAt_ge_length (Nat.le_of_lt hbig)
      · exact hlast j hj hsmall

theorem c3_split_basename_amended_witness :
    hasSub ['_', '_'] ("abc" : String).data = false ∧
    split_basename "abc" = (some "abc", "") ∧
    hasSub ['_', '_'] ("roll12__F7" : String).data = true ∧
    split_basename "roll12__F7" = (some "roll12", "F7") :=
  ⟨by decide, (c3_split_basename_amended.1 "abc" (by decide)), by decide, rfl⟩

/- ## C9: the shutter-speed / aperture auto-fill rules -/

theorem getEqMarker_of_get {md : Store} {k : String} {v : Value}
    (h : dictGet md k = some v) (m : Marker) :
    getEqMarker md k m = v.eqMarker m := by
  simp [getEqMarker, pyGet, h]

theorem af_docname_frame {md md' : Store} (h : af_docname md = .ok md') {k : String}
    (hk : k ≠ "DocumentName") : dictGet md' k = dictGet md k := by
  unfold af_docname at h
  dsimp only at h
  split at h
  · split at h
    · split at h
      · injection h with h
        rw [← h, dictGet_dictSet_ne _ _ (Ne.symm hk)]
      · exact Except.noConfusion h
    · injection h with h
      rw [← h, dictGet_dictSet_ne _ _ (Ne.symm hk)]
  · injection h with h
    rw [← h]

theorem af_modifydate_frame (env : AfEnv) (md : Store) {k : String}
    (hk1 : k ≠ "ModifyDate") (hk2 : k ≠ "OffsetTime") :
    dictGet (af_modifydate env md) k = dictGet md k := by
  unfold af_modifydate
  dsimp only
  split
  · split
    · rw [dictGet_dictSet_ne _ _ (Ne.symm hk2), dictGet_dictSet_ne _ _ (Ne.symm hk1)]
    · rw [dictGet_dictSet_ne _ _ (Ne.symm hk1)]
  · rfl

theorem af_shutter_frame (md : Store) {k : String} (hk : k ≠ "ShutterSpeedValue") :
    dictGet (af_shutter md) k = dictGet md k := by
  unfold af_shutter
  split
  · rw [dictGet_dictSet_ne _ _ (Ne.symm hk)]
  · rfl

theorem af_shutter_set {md : Store}
    (h : getEqMarker md "ShutterSpeedValue" .AUTO = true) :
    dictGet (af_shutter md) "ShutterSpeedValue"
      = some ((dictGet md "ExposureTime").getD (.marker .SKIP)) := by
  unfold af_shutter
  rw [if_pos h, dictGet_dictSet_self]

theorem af_aperture_frame (md : Store) {k : String} (hk : k ≠ "ApertureValue") :
    dictGet (af_aperture md) k = dictGet md k := by
  unfold af_aperture
  split
  · rw [dictGet_dictSet_ne _ _ (Ne.symm hk)]
  · rfl

theorem af_aperture_set {md : Store}
    (h : getEqMarker md "ApertureValue" .AUTO = true) :
    dictGet (af_aperture md) "ApertureValue"
      = some ((dictGet md "FNumber").getD (.marker .SKIP)) := by
  unfold af_aperture
  rw [if_pos h, dictGet_dictSet_self]

theorem af_width_frame (env : AfEnv) (md : Store) {k : String}
    (hk : k ≠ "ExifImageWidth") : dictGet (af_width env md) k = dictGet md k := by
  unfold af_width
  split
  · rw [dictGet_dictSet_ne _ _ (Ne.symm hk)]
  · rfl

theorem af_height_frame (env : AfEnv) (md : Store) {k : String}
    (hk : k ≠ "ExifImageHeight") : dictGet (af_height env md) k = dictGet md k := by
  unfold af_height
  split
  · rw [dictGet_dictSet_ne _ _ (Ne.symm hk)]
  · rfl

theorem af_createdate_frame (env : AfEnv) (md : Store) {k : String}
    (hk1 : k ≠ "CreateDate") (hk2 : k ≠ "OffsetTimeDigitized") :
    dictGet (af_createdate env md) k = dictGet md k := by
  unfold af_createdate
  dsimp only
  split
  · split
    · split
      · rw [dictGet_dictSet_ne _ _ (Ne.symm hk2), dictGet_dictSet_ne _ _ (Ne.symm hk1)]
      · rw [dictGet_dictSet_ne _ _ (Ne.symm hk1)]
    · rw [dictGet_dictSet_ne _ _ (Ne.symm hk1)]
  · rfl

theorem af_gpslat_frame {md md' : Store} (h : af_gpslat md = .ok md') {k : String}
    (hk1 : k ≠ "GPSLatitudeRef") (hk2 : k ≠ "GPSLatitude") :
    dictGet md' k = dictGet md k := by
  unfold af_gpslat at h
  dsimp only at h
  split at h
  · split at h
    · split at h
      · split at h
        · split at h
          · injection h with h
            rw [← h, dictGet_dictSet_ne _ _ (Ne.symm hk2), dictGet_dictSet_ne _ _ (Ne.symm hk1)]
          · exact Except.noConfusion h
        · exact Except.noConfusion h
      · split at h
        · injection h with h
          rw [← h, dictGet_dictSet_ne _ _ (Ne.symm hk1)]
        · injection h with h
          rw [← h, dictGet_dictSet_ne _ _ (Ne.symm hk2), dictGet_dictSet_ne _ _ (Ne.symm hk1)]
      · exact Except.noConfusion h
    · injection h with h
      rw [← h, dictGet_dictSet_ne _ _ (Ne.symm hk1)]
  · injection h with h
    rw [← h]

theorem af_gpslon_frame {md md' : Store} (h : af_gpslon md = .ok md') {k : String}
    (hk1 : k ≠ "GPSLongitudeRef") (hk2 : k ≠ "GPSLongitude") :
    dictGet md' k = dictGet md k := by
  unfold af_gpslon at h
  dsimp only at h
  split at h
  · split at h
    · split at h
      · split at h
        · split at h
          · injection h with h
            rw [← h, dictGet_dictSet_ne _ _ (Ne.symm hk2), dictGet_dictSet_ne _ _ (Ne.symm hk1)]
          · exact Except.noConfusion h
        · exact Except.noConfusion h
      · split at h
        · split at h
          · injection h with h
            rw [← h, dictGet_dictSet_ne _ _ (Ne.symm hk1)]
          · injection h with h
            rw [← h, dictGet_dictSet_ne _ _ (Ne.symm hk2), dictGet_dictSet_ne _ _ (Ne.symm hk1)]
        · exact Except.noConfusion h
    · injection h with h
      rw [← h, dictGet_dictSet_ne _ _ (Ne.symm hk1)]
  · injection h with h
    rw [← h]

theorem af_gpsalt_frame {md md' : Store} (h : af_gpsalt md = .ok md') {k : String}
    (hk1 : k ≠ "GPSAltitudeRef") (hk2 : k ≠ "GPSAltitude") :
    dictGet md' k = dictGet md k := by
  unfold af_gpsalt at h
  dsimp only at h
  split at h
  · split at h
    · split at h
      · split at h
        · injection h with h
          rw [← h, dictGet_dictSet_ne _ _ (Ne.symm hk1)]
        · injection h with h
          rw [← h, dictGet_dictSet_ne _ _ (Ne.symm hk2), dictGet_dictSet_ne _ _ (Ne.symm hk1)]
      · exact Except.noConfusion h
    · injection h with h
      rw [← h, dictGet_dictSet_ne _ _ (Ne.symm hk1)]
  · injection h with h
    rw [← h]

theorem af_gpsproc_frame (md : Store) {k : String} (hk : k ≠ "GPSProcessingMethod") :
    dictGet (af_gpsproc md) k = dictGet md k := by
  unfold af_gpsproc
  split
  · split
    · rw [dictGet_dictSet_ne _ _ (Ne.symm hk)]
    · rw [dictGet_dictSet_ne _ _ (Ne.symm hk)]
  · rfl

theorem autofill_ok_elim {env : AfEnv} {md md' : Store}
    (h : metadata_autofill env md = .ok md') :
    ∃ md1 md2 md3 md4,
      af_docname md = .ok md1 ∧
      af_gpslat (af_createdate env (af_height env (af_width env (af_aperture
        (af_shutter (af_modifydate env md1)))))) = .ok md2 ∧
      af_gpslon md2 = .ok md3 ∧
      af_gpsalt md3 = .ok md4 ∧
      md' = af_gpsproc md4 := by
  unfold metadata_autofill at h
  cases hd : af_docname md with
  | error e => rw [hd] at h; exact Except.noConfusion h
  | ok md1 =>
    rw [hd] at h
    dsimp only at h
    cases hl : af_gpslat (af_createdate env (af_height env (af_width env (af_aperture
        (af_shutter (af_modifydate env md1)))))) with
    | error e => rw [hl] at h; exact Except.noConfusion h
    | ok md2 =>
      rw [hl] at h
      dsimp only at h
      cases hlon : af_gpslon md2 with
      | error e => rw [hlon] at h; exact Except.noConfusion h
      | ok md3 =>
        rw [hlon] at h
        dsimp only at h
        cases halt : af_gpsalt md3 with
        | error e => rw [halt] at h; exact Except.noConfusion h
        | ok md4 =>
          rw [halt] at h
          dsimp only at h
          injection h with h
          exact ⟨md1, md2, md3, md4, rfl, hl, hlon, halt, h.symm⟩

/-- C9 amended: when the shutter-speed tag holds `AUTO` entering auto-fill,
it is set to a copy of the exposure-time tag's CURRENT value — whether that
is a literal or still a marker such as `OPTIONAL` — and to the `SKIP`
marker only when the exposure-time tag is ABSENT from the store (likewise
the aperture-value tag from the f-number tag). -/
theorem c9_shutter_aperture_amended (env : AfEnv) (md md' : Store)
    (h : metadata_autofill env md = .ok md') :
    (dictGet md "ShutterSpeedValue" = some (.marker .AUTO) →
      dictGet md' "ShutterSpeedValue"
        = some ((dictGet md "ExposureTime").getD (.marker .SKIP))) ∧
    (dictGet md "ApertureValue" = some (.marker .AUTO) →
      dictGet md' "ApertureValue"
        = some ((dictGet md "FNumber").getD (.marker .SKIP))) := by
  obtain ⟨md1, md2, md3, md4, h1, h2, h3, h4, h5⟩ := autofill_ok_elim h
  have fd : ∀ k, k ≠ "DocumentName" → dictGet md1 k = dictGet md k :=
    fun k hk => af_docname_frame h1 hk
  constructor
  · intro hssv
    have s1 : dictGet (af_modifydate env md1) "ShutterSpeedValue"
        = some (.marker .AUTO) := by
      rw [af_modifydate_frame env md1 (by decide) (by decide), fd _ (by decide), hssv]
    have sET : dictGet (af_modifydate env md1) "ExposureTime"
        = dictGet md "ExposureTime" := by
      rw [af_modifydate_frame env md1 (by decide) (by decide), fd _ (by decide)]
    have s2 : dictGet (af_shutter (af_modifydate env md1)) "ShutterSpeedValue"
        = some ((dictGet md "ExposureTime").getD (.marker .SKIP)) := by
      rw [af_shutter_set (by rw [getEqMarker_of_get s1]; rfl), sET]
    rw [h5, af_gpsproc_frame _ (by decide),
        af_gpsalt_frame h4 (by decide) (by decide),
        af_gpslon_frame h3 (by decide) (by decide),
        af_gpslat_frame h2 (by decide) (by decide),
        af_createdate_frame _ _ (by decide) (by decide),
        af_height_frame _ _ (by decide),
        af_width_frame _ _ (by decide),
        af_aperture_frame _ (by decide)]
    exact s2
  · intro hap
    have a1 : dictGet (af_shutter (af_modifydate env md1)) "ApertureValue"
        = some (.marker .AUTO) := by
      rw [af_shutter_frame _ (by decide), af_modifydate_frame env md1 (by decide) (by decide),
          fd _ (by decide), hap]
    have aFN : dictGet (af_shutter (af_modifydate env md1)) "FNumber"
        = dictGet md "FNumber" := by
      rw [af_shutter_frame _ (by decide), af_modifydate_frame env md1 (by decide) (by decide),
          fd _ (by decide)]
    have a2 : dictGet (af_aperture (af_shutter (af_modifydate env md1))) "ApertureValue"
        = some ((dictGet md "FNumber").getD (.marker .SKIP)) := by
      rw [af_aperture_set (by rw [getEqMarker_of_get a1]; rfl), aFN]
    rw [h5, af_gpsproc_frame _ (by decide),
        af_gpsalt_frame h4 (by decide) (by decide),
        af_gpslon_frame h3 (by decide) (by decide),
        af_gpslat_frame h2 (by decide) (by decide),
        af_createdate_frame _ _ (by decide) (by decide),
        af_height_frame _ _ (by decide),
        af_width_frame _ _ (by decide)]
    exact a2

/-- A fixed ambient environment for concrete auto-fill runs. -/
def afEnvC : AfEnv :=
  ⟨"2024:01:02 03:04:05", "+0300", 4096, 2656, "2024:01:02 03:04:05", "+0300"⟩

/-- C9 counterexample: on the program's own compiled-in default store —
where `ExposureTime` holds the `OPTIONAL` marker, which is "not set to a
literal" — auto-fill leaves `ShutterSpeedValue` holding `OPTIONAL`, not the
`SKIP` marker the claim requires (likewise `ApertureValue` from
`FNumber`). -/
theorem c9_shutter_aperture_counterexample :
    (metadata_autofill afEnvC metadata_default).map
        (fun s => dictGet s "ShutterSpeedValue") = .ok (some (.marker .OPTIONAL)) ∧
    (metadata_autofill afEnvC metadata_default).map
        (fun s => dictGet s "ApertureValue") = .ok (some (.marker .OPTIONAL)) ∧
    Value.marker .OPTIONAL ≠ Value.marker .SKIP :=
  ⟨rfl, rfl, by intro h; exact absurd (Value.marker.inj h) (by decide)⟩

theorem c9_shutter_aperture_amended_witness :
    (metadata_autofill afEnvC metadata_default).map (fun s => dictGet s "ShutterSpeedValue")
      = .ok (some ((dictGet metadata_default "ExposureTime").getD (.marker .SKIP))) := by
  cases hr : metadata_autofill afEnvC metadata_default with
  | error e =>
    have hOk : (metadata_autofill afEnvC metadata_default).isOk = true := rfl
    rw [hr] at hOk
    exact Bool.noConfusion hOk
  | ok md' =>
    show Except.ok (dictGet md' "ShutterSpeedValue") = _
    rw [(c9_shutter_aperture_amended afEnvC metadata_default md' hr).1 rfl]

/- ## C2: marker display forms in directory metadata files -/

/-- C2 (code bug): the `continue` at src/exif-writer.py:469 continues the
inner `for marker in Marker` loop, not the outer line loop, so after a
marker display form has been matched and assigned, control still reaches
`ast.literal_eval`, which fails on the display form (not a valid Python
literal) and overwrites the assignment with the literal string.  A
directory metadata line `Make=<MANDATORY>` therefore maps `Make` to the
STRING `"<MANDATORY>"`, not to the `MANDATORY` marker sentinel the code's
own marker machinery (and the spec) requires. -/
theorem c2_marker_display_parsed_as_string :
    metadata_get_file ["Make=<MANDATORY>"] = [("Make", .str "<MANDATORY>")] ∧
    metadata_get_file ["ExposureMode=<SKIP>"] = [("ExposureMode", .str "<SKIP>")] ∧
    Value.str "<MANDATORY>" ≠ Value.marker .MANDATORY :=
  ⟨rfl, rfl, fun h => Value.noConfusion h⟩

/- ## C4: MANDATORY validation at emission -/

theorem eqMarker_true_iff {v : Value} {m : Marker} :
    v.eqMarker m = true ↔ v = .marker m := by
  cases v <;> simp [Value.eqMarker]

/-- `isinstance(v, str)`. -/
def Value.isStrVal : Value → Bool
  | .str _ => true
  | _ => false

/-- An entry the argument-construction loop can process without raising:
not `MANDATORY`, and — since the datetime pattern match crashes on
non-strings — a value that formats to a string (already a string, or a
sequence joined to one) whenever the tag is one of the three datetime tag
names.  (Derived predicate used to characterize when emission reaches the
tool call.) -/
def emit_entry_safe (k : String) (v : Value) : Bool :=
  v.eqMarker .DELETE || v.eqMarker .SKIP || v.eqMarker .OPTIONAL ||
  (!v.eqMarker .MANDATORY &&
    (v.seqElems.isSome || v.isStrVal ||
      !(k = "DateTimeOriginal" || k = "ModifyDate" || k = "CreateDate")))

theorem emit_mandatory_error (l : List (String × Value)) :
    ∀ acc, (∃ k, (k, Value.marker .MANDATORY) ∈ l) →
      ∃ e, emit_tag_args l acc = .error e := by
  induction l with
  | nil =>
    intro acc h
    obtain ⟨k, hk⟩ := h
    cases hk
  | cons hd tl ih =>
    intro acc h
    obtain ⟨k, hk⟩ := h
    obtain ⟨k0, v0⟩ := hd
    unfold emit_tag_args
    by_cases hdel : v0.eqMarker .DELETE = true
    · simp only [hdel, if_true]
      apply ih
      rcases List.mem_cons.mp hk with heq | htl
      · injection heq with h1 h2
        rw [← h2] at hdel
        simp [Value.eqMarker] at hdel
      · exact ⟨k, htl⟩
    · by_cases hskip : (v0.eqMarker .SKIP || v0.eqMarker .OPTIONAL) = true
      · simp only [Bool.not_eq_true] at hdel
        simp only [hdel, Bool.false_eq_true, if_false, hskip, if_true]
        apply ih
        rcases List.mem_cons.mp hk with heq | htl
        · injection heq with h1 h2
          rw [← h2] at hskip
          simp [Value.eqMarker] at hskip
        · exact ⟨k, htl⟩
      · by_cases hman : v0.eqMarker .MANDATORY = true
        · simp only [Bool.not_eq_true] at hdel hskip
          simp only [hdel, hskip, hman, Bool.false_eq_true, if_false, if_true]
          exact ⟨_, rfl⟩
        · have htl : (k, Value.marker .MANDATORY) ∈ tl := by
            rcases List.mem_cons.mp hk with heq | htl
            · exfalso
              injection heq with h1 h2
              rw [← h2] at hman
              simp [Value.eqMarker] at hman
            · exact htl
          simp only [Bool.not_eq_true] at hdel hskip hman
          simp only [hdel, hskip, hman, Bool.false_eq_true, if_false]
          repeat' split
          all_goals first
            | exact ⟨_, rfl⟩
            | exact ih _ ⟨k, htl⟩

theorem emit_safe_ok (l : List (String × Value)) :
    ∀ acc, (∀ p ∈ l, emit_entry_safe p.1 p.2 = true) →
      ∃ args, emit_tag_args l acc = .ok args := by
  induction l with
  | nil => exact fun acc _ => ⟨acc, rfl⟩
  | cons hd tl ih =>
    intro acc hall
    obtain ⟨k0, v0⟩ := hd
    have hsafe := hall (k0, v0) (List.mem_cons_self _ _)
    have hrest : ∀ p ∈ tl, emit_entry_safe p.1 p.2 = true :=
      fun p hp => hall p (List.mem_cons_of_mem _ hp)
    unfold emit_tag_args
    by_cases hdel : v0.eqMarker .DELETE = true
    · simp only [hdel, if_true]
      exact ih _ hrest
    · by_cases hskip : (v0.eqMarker .SKIP || v0.eqMarker .OPTIONAL) = true
      · simp only [Bool.not_eq_true] at hdel
        simp only [hdel, Bool.false_eq_true, if_false, hskip, if_true]
        exact ih _ hrest
      · have hman : v0.eqMarker .MANDATORY = false := by
          cases hm : v0.eqMarker .MANDATORY with
          | false => rfl
          | true =>
            exfalso
            rw [eqMarker_true_iff] at hm
            subst hm
            simp only [Bool.not_eq_true] at hdel hskip
            unfold emit_entry_safe at hsafe
            simp [Value.eqMarker] at hsafe
        obtain ⟨hsk1, hsk2⟩ := Bool.or_eq_false_iff.mp
          (by simpa only [Bool.not_eq_true] using hskip)
        have hsafe' : (v0.seqElems.isSome || v0.isStrVal ||
            !(k0 = "DateTimeOriginal" || k0 = "ModifyDate" || k0 = "CreateDate") : Bool)
            = true := by
          unfold emit_entry_safe at hsafe
          simp only [Bool.not_eq_true] at hdel
          simp only [hdel, hsk1, hsk2, hman, Bool.false_or, Bool.not_false,
            Bool.true_and] at hsafe
          exact hsafe
        simp only [Bool.not_eq_true] at hdel hskip
        simp only [hdel, hskip, hman, Bool.false_eq_true, if_false]
        cases hseq : v0.seqElems with
        | some items =>
          (repeat' split) <;> exact ih _ hrest
        | none =>
          rw [hseq] at hsafe'
          cases v0 with
          | str s => (repeat' split) <;> exact ih _ hrest
          | list xs => exact absurd hseq (by simp [Value.seqElems])
          | tuple xs => exact absurd hseq (by simp [Value.seqElems])
          | int n =>
            have hdt : (decide (k0 = "DateTimeOriginal") || decide (k0 = "ModifyDate") ||
                decide (k0 = "CreateDate")) = false := by
              simpa [Value.isStrVal] using hsafe'
            simp only [Value.eqStr, Bool.false_eq_true, if_false, hdt]
            exact ih _ hrest
          | float q =>
            have hdt : (decide (k0 = "DateTimeOriginal") || decide (k0 = "ModifyDate") ||
                decide (k0 = "CreateDate")) = false := by
              simpa [Value.isStrVal] using hsafe'
            simp only [Value.eqStr, Bool.false_eq_true, if_false, hdt]
            exact ih _ hrest
          | bool b =>
            have hdt : (decide (k0 = "DateTimeOriginal") || decide (k0 = "ModifyDate") ||
                decide (k0 = "CreateDate")) = false := by
              simpa [Value.isStrVal] using hsafe'
            simp only [Value.eqStr, Bool.false_eq_true, if_false, hdt]
            exact ih _ hrest
          | pynone =>
            have hdt : (decide (k0 = "DateTimeOriginal") || decide (k0 = "ModifyDate") ||
                decide (k0 = "CreateDate")) = false := by
              simpa [Value.isStrVal] using hsafe'
            simp only [Value.eqStr, Bool.false_eq_true, if_false, hdt]
            exact ih _ hrest
          | marker m =>
            have hdt : (decide (k0 = "DateTimeOriginal") || decide (k0 = "ModifyDate") ||
                decide (k0 = "CreateDate")) = false := by
              simpa [Value.isStrVal] using hsafe'
            simp only [Value.eqStr, Bool.false_eq_true, if_false, hdt]
            exact ih _ hrest

theorem mem_dictSet_elim {md : Store} {k : String} {w : Value}
    (hnd : (dictKeys md).Nodup) {p : String × Value} (hp : p ∈ dictSet md k w) :
    p = (k, w) ∨ (p ∈ md ∧ p.1 ≠ k) := by
  induction md with
  | nil =>
    unfold dictSet at hp
    rw [List.mem_singleton] at hp
    exact Or.inl hp
  | cons hd tl ih =>
    obtain ⟨k0, v0⟩ := hd
    simp only [dictKeys, List.map_cons, List.nodup_cons] at hnd
    unfold dictSet at hp
    by_cases h0 : k0 = k
    · rw [if_pos h0] at hp
      rcases List.mem_cons.mp hp with heq | htl
      · exact Or.inl heq
      · refine Or.inr ⟨List.mem_cons_of_mem _ htl, ?_⟩
        intro hpk
        subst h0
        exact hnd.1 (hpk ▸ List.mem_map_of_mem Prod.fst htl)
    · rw [if_neg h0] at hp
      rcases List.mem_cons.mp hp with heq | htl
      · subst heq
        exact Or.inr ⟨List.mem_cons_self _ _, h0⟩
      · rcases ih hnd.2 htl with heq | ⟨hmem, hne⟩
        · exact Or.inl heq
        · exact Or.inr ⟨List.mem_cons_of_mem _ hmem, hne⟩

/-- C4 counterexample: the claim's second half fails as stated.  The store
`{DateTimeOriginal: MANDATORY}` has its sole MANDATORY tag replaced by the
literal `5` — yet emission does not proceed: the datetime pattern match at
src/exif-writer.py:1050-1051 is applied to the non-string value and the
call crashes instead of reaching the tool invocation. -/
theorem c4_mandatory_validation_counterexample :
    emit_args (dictSet [("DateTimeOriginal", Value.marker .MANDATORY)]
        "DateTimeOriginal" (Value.int 5))
      = .error "TypeError: datetime_regex.match expects a string" ∧
    (Value.int 5).isMarkerVal = false :=
  ⟨rfl, rfl⟩

/-- C4 amended: (a) whenever some tag still holds `MANDATORY`, the
argument-construction loop raises, so nothing is ever passed to the
metadata tool (the subprocess call sits after the loop); (b) a store whose
entries are all emission-safe reaches the tool invocation; (c) replacing
the only possibly-MANDATORY tag of a store by a literal value passes the
MANDATORY validation and emission proceeds, PROVIDED the replacement is
itself emission-safe — for the three datetime tag names a non-string
replacement instead crashes the syntactic datetime match. -/
theorem c4_mandatory_validation_amended :
    (∀ md : Store, (∃ k, (k, Value.marker .MANDATORY) ∈ md) →
      ∃ e, emit_args md = .error e) ∧
    (∀ md : Store, (∀ p ∈ md, emit_entry_safe p.1 p.2 = true) →
      ∃ args, emit_args md = .ok args) ∧
    (∀ (md : Store) (k : String) (w : Value),
      (dictKeys md).Nodup →
      (∀ p ∈ md, p.1 ≠ k → emit_entry_safe p.1 p.2 = true) →
      w.isMarkerVal = false → emit_entry_safe k w = true →
      ∃ args, emit_args (dictSet md k w) = .ok args) := by
  refine ⟨?_, ?_, ?_⟩
  · intro md h
    exact emit_mandatory_error md _ h
  · intro md h
    exact emit_safe_ok md _ h
  · intro md k w hnd hrest _hlit hwsafe
    apply emit_safe_ok
    intro p hp
    rcases mem_dictSet_elim hnd hp with rfl | ⟨hpmem, hpne⟩
    · exact hwsafe
    · exact hrest p hpmem hpne

theorem c4_mandatory_validation_amended_witness :
    (emit_args [("Make", Value.marker .MANDATORY)]).isOk = false ∧
    (emit_args (dictSet [("Make", Value.marker .MANDATORY)] "Make"
        (Value.str "Canon"))).isOk = true := by
  constructor
  · obtain ⟨e, he⟩ := c4_mandatory_validation_amended.1 [("Make", Value.marker .MANDATORY)]
      ⟨"Make", List.mem_singleton.mpr rfl⟩
    rw [he]
    rfl
  · obtain ⟨args, ha⟩ := c4_mandatory_validation_amended.2.2
      [("Make", Value.marker .MANDATORY)] "Make" (Value.str "Canon") (by decide)
      (by
        intro p hp hne
        rw [List.mem_singleton] at hp
        subst hp
        exact absurd rfl hne)
      rfl rfl
    rw [ha]
    rfl

/- ## C1: the move-then-validate ordering of `process_file` -/

/-- A fixed ambient environment for concrete `process_file` runs. -/
def pEnvC : PEnv := ⟨true, [], [[1]], afEnvC, true⟩

/-- C1 counterexample: a store whose `Make` tag still holds `MANDATORY`
makes terminal validation fail — yet the staged file has already been moved
to the destination (and is not fully tagged), contradicting the claim that
no partially-tagged file is left at the destination when validation
fails. -/
theorem c1_move_before_validation_counterexample :
    process_file_model pEnvC [("Make", Value.marker .MANDATORY)]
      = ⟨some "Error! Mandatory tag Make value not assigned.", false, true, false⟩ ∧
    (process_file_model pEnvC [("Make", Value.marker .MANDATORY)]).err.isSome = true ∧
    (process_file_model pEnvC [("Make", Value.marker .MANDATORY)]).destOccupied = true ∧
    (process_file_model pEnvC [("Make", Value.marker .MANDATORY)]).destTagged = false :=
  ⟨rfl, rfl, rfl, rfl⟩

/-- C1 amended: the `shutil.move` of the staged temp file to the
destination happens BEFORE terminal validation and the metadata tool's
tag-writing call.  Whenever the pre-move phases and auto-fill succeed, the
destination is occupied regardless of how validation or the tool fare; a
validation failure or a tool failure then leaves the moved, not fully
tagged file at the destination (only failures before the move leave the
destination untouched). -/
theorem c1_move_before_validation_amended (env : PEnv) (md mdp mda : Store)
    (htmp : env.tempOk = true)
    (hpre : process_premove env md = .ok mdp)
    (hauto : metadata_autofill env.afEnv mdp = .ok mda) :
    (process_file_model env md).destOccupied = true ∧
    ((∃ e, emit_args (delete_keys_with_pfx mda
        ["ImageTransform:", "Script:", "Scanner:", "ImageHistory:", "Extra:"]) = .error e) →
      (process_file_model env md).err.isSome = true ∧
      (process_file_model env md).destTagged = false) ∧
    (env.toolOk = false → (process_file_model env md).destTagged = false) := by
  have hres : process_file_model env md =
      (match emit_args (delete_keys_with_pfx mda
          ["ImageTransform:", "Script:", "Scanner:", "ImageHistory:", "Extra:"]) with
       | .error e => ⟨some e, false, true, false⟩
       | .ok _args =>
         if env.toolOk then ⟨none, false, true, true⟩
         else ⟨some "ToolError: exiftool returned nonzero", false, true, false⟩) := by
    simp only [process_file_model, htmp, hpre, hauto, Bool.not_true,
      Bool.false_eq_true, if_false]
  refine ⟨?_, ?_, ?_⟩
  · rw [hres]
    cases he : emit_args (delete_keys_with_pfx mda
        ["ImageTransform:", "Script:", "Scanner:", "ImageHistory:", "Extra:"]) with
    | error e => rfl
    | ok args =>
      dsimp only
      cases ht : env.toolOk <;> simp [ht]
  · intro he
    obtain ⟨e, he⟩ := he
    rw [hres, he]
    exact ⟨rfl, rfl⟩
  · intro ht
    rw [hres]
    cases he : emit_args (delete_keys_with_pfx mda
        ["ImageTransform:", "Script:", "Scanner:", "ImageHistory:", "Extra:"]) with
    | error e => rfl
    | ok args =>
      dsimp only
      rw [ht]
      rfl

theorem c1_move_before_validation_amended_witness :
    (process_file_model pEnvC [("Make", Value.marker .MANDATORY)]).destOccupied = true :=
  (c1_move_before_validation_amended pEnvC [("Make", Value.marker .MANDATORY)]
    [("Make", Value.marker .MANDATORY)] [("Make", Value.marker .MANDATORY)]
    rfl rfl rfl).1

end ExifWriter
